import Mathlib

/-!
# bookmgr: the Book entity, its validator, the MySQL-backed repository and the HTTP handlers

A shallow embedding of `models/book.go`, `database/database.go` and
`handlers/handlers.go`.

Modelling conventions.

* Go `int` fields are `Int`; no arithmetic is performed on them by the program.
* Go `string` fields are `String`.
* The `float64` field `Rating` is a `ℚ`: a finite float64 is identified with the
  decimal value of its shortest round-trip representation, which is the value the
  JSON codec reads and writes and the value MySQL converts to `DECIMAL`.  The
  constants `0` and `5` the validator compares with are exact.  `NaN` and the
  infinities, which the JSON decoder cannot produce, are outside the model.
* A Go `map[string]string` is an association list with distinct keys.
* A Go `(T, error)` result is a pair of options.
-/

namespace Bookmgr

/-! ## models/book.go -/

/-- The `Book` struct of `models/book.go`. -/
structure Book where
  ID : Int
  Title : String
  NumPages : Int
  Author : String
  Rating : ℚ
  deriving DecidableEq

/-- A Go `map[string]string`. -/
abbrev GoMap := List (String × String)

/-- Map assignment `m[k] = v`: overwrite the entry of `k` or add one. -/
def GoMap.set (m : GoMap) (k v : String) : GoMap :=
  if m.any (fun e => e.1 == k) then m.map (fun e => if e.1 == k then (k, v) else e)
  else m ++ [(k, v)]

/-- The keys of a map. -/
def GoMap.keys (m : GoMap) : List String := m.map Prod.fst

/-- Go `len(m)`. -/
def GoMap.len (m : GoMap) : Nat := m.length

/-- Go `func (b *Book) Validate() map[string]string`: four independent checks,
each adding its own key. -/
def Book.Validate (b : Book) : GoMap :=
  let errors : GoMap := []
  let errors := if b.Title = "" then errors.set "title" "Title is required" else errors
  let errors := if b.Author = "" then errors.set "author" "Author is required" else errors
  let errors :=
    if b.NumPages < 0 then errors.set "numPages" "Number of pages cannot be negative" else errors
  let errors :=
    if b.Rating < 0 ∨ b.Rating > 5 then errors.set "rating" "Rating must be between 0 and 5"
    else errors
  errors

/-- The example book of the specification. -/
def dune : Book :=
  { ID := 0, Title := "Dune", NumPages := 412, Author := "Herbert", Rating := 9 / 2 }

/-! ## Go errors -/

/-- The Go `error` values that occur in the program. -/
inductive Error where
  /-- An error reported by the MySQL driver or server. -/
  | driver (msg : String)
  /-- The sentinel `sql.ErrNoRows`. -/
  | errNoRows
  /-- The value of `fmt.Errorf("<msg>: %w", cause)`. -/
  | wrapped (msg : String) (cause : Error)
  deriving DecidableEq

/-! ## The `books` table of `bootstrap`, under MySQL's strict SQL mode

```
id INT AUTO_INCREMENT PRIMARY KEY, title VARCHAR(255) NOT NULL,
num_pages INT NOT NULL DEFAULT 0, author VARCHAR(255) NOT NULL,
rating DECIMAL(3,2) NOT NULL DEFAULT 0.00
```
The two timestamp columns are never read or written by the program and are left out.
-/

/-- A stored row of `books`. -/
structure Row where
  id : Int
  title : String
  num_pages : Int
  author : String
  rating : ℚ
  deriving DecidableEq

/-- The table: its rows in storage order and the next `AUTO_INCREMENT` value. -/
structure Table where
  rows : List Row
  autoInc : Int
  deriving DecidableEq

/-- Assignment to a `VARCHAR(255)` column: at most 255 characters are stored as they
are; trailing spaces beyond the column length are cut; any other excess is the error
`Data too long for column`. -/
def storeVarchar255 (s : String) : Except Error String :=
  if s.data.length ≤ 255 then .ok s
  else if (s.data.drop 255).all (fun c => c == ' ') then .ok ⟨s.data.take 255⟩
  else .error (.driver "Error 1406: Data too long for column")

/-- Assignment to an `INT` column: a signed 32-bit range check. -/
def storeInt (n : Int) : Except Error Int :=
  if -2147483648 ≤ n ∧ n ≤ 2147483647 then .ok n
  else .error (.driver "Error 1264: Out of range value for column")

/-- Rounding to the nearest integer, ties away from zero. -/
def roundHalfAway (q : ℚ) : Int :=
  if 0 ≤ q then ⌊q + 1 / 2⌋ else -⌊-q + 1 / 2⌋

/-- Assignment to a `DECIMAL(3,2)` column: the value is rounded to two decimals and
must then lie in `[-9.99, 9.99]`. -/
def storeDecimal32 (q : ℚ) : Except Error ℚ :=
  let h := roundHalfAway (q * 100)
  if -999 ≤ h ∧ h ≤ 999 then .ok ((h : ℚ) / 100)
  else .error (.driver "Error 1264: Out of range value for column")

/-- The OK packet of a data-changing statement. -/
structure ExecResult where
  lastInsertId : Int
  affectedRows : Int
  deriving DecidableEq

/-- The statement `INSERT INTO books (title, num_pages, author, rating) VALUES (?, ?, ?, ?)`. -/
def Table.insert (t : Table) (title : String) (num_pages : Int) (author : String)
    (rating : ℚ) : Except Error (ExecResult × Table) :=
  match storeVarchar255 title, storeInt num_pages, storeVarchar255 author,
      storeDecimal32 rating with
  | .ok ti, .ok n, .ok au, .ok ra =>
    if 2147483647 < t.autoInc then
      .error (.driver "Error 1467: Failed to read auto-increment value from storage engine")
    else if t.rows.any (fun r => r.id == t.autoInc) then
      .error (.driver "Error 1062: Duplicate entry for key PRIMARY")
    else
      .ok ({ lastInsertId := t.autoInc, affectedRows := 1 },
           { rows := t.rows ++ [{ id := t.autoInc, title := ti, num_pages := n,
                                  author := au, rating := ra }],
             autoInc := t.autoInc + 1 })
  | .error e, _, _, _ => .error e
  | _, .error e, _, _ => .error e
  | _, _, .error e, _ => .error e
  | _, _, _, .error e => .error e

/-- The statement `SELECT id, title, num_pages, author, rating FROM books ORDER BY id`. -/
def Table.selectAll (t : Table) : List Row :=
  t.rows.insertionSort (fun a b => a.id ≤ b.id)

/-- The statement `SELECT id, title, num_pages, author, rating FROM books WHERE id = ?`. -/
def Table.selectByID (t : Table) (id : Int) : List Row :=
  t.rows.filter (fun r => r.id == id)

/-- The statement `UPDATE books SET title = ?, num_pages = ?, author = ?, rating = ? WHERE id = ?`.
The connection is opened without `clientFoundRows`, so the affected-row count is the
number of rows whose stored values changed. -/
def Table.update (t : Table) (title : String) (num_pages : Int) (author : String)
    (rating : ℚ) (id : Int) : Except Error (ExecResult × Table) :=
  if t.rows.any (fun r => r.id == id) then
    match storeVarchar255 title, storeInt num_pages, storeVarchar255 author,
        storeDecimal32 rating with
    | .ok ti, .ok n, .ok au, .ok ra =>
      let set (r : Row) : Row :=
        { id := r.id, title := ti, num_pages := n, author := au, rating := ra }
      .ok ({ lastInsertId := 0,
             affectedRows := ((t.rows.filter (fun r => r.id == id && set r != r)).length : Int) },
           { rows := t.rows.map (fun r => if r.id == id then set r else r),
             autoInc := t.autoInc })
    | .error e, _, _, _ => .error e
    | _, .error e, _, _ => .error e
    | _, _, .error e, _ => .error e
    | _, _, _, .error e => .error e
  else .ok ({ lastInsertId := 0, affectedRows := 0 }, t)

/-- The statement `DELETE FROM books WHERE id = ?`. -/
def Table.delete (t : Table) (id : Int) : ExecResult × Table :=
  ({ lastInsertId := 0,
     affectedRows := ((t.rows.filter (fun r => r.id == id)).length : Int) },
   { rows := t.rows.filter (fun r => !(r.id == id)), autoInc := t.autoInc })

/-! ## The `database/sql` client, with the failures it can report -/

/-- The failures the store reports during one repository call. -/
structure Faults where
  /-- The statement cannot be executed (connection lost, access denied). -/
  exec : Option String
  /-- The call `Result.LastInsertId()` fails. -/
  lastInsertId : Option String
  /-- The call `Result.RowsAffected()` fails. -/
  rowsAffected : Option String
  /-- The call `Scan` on row number `k` of the result fails. -/
  scan : Nat → Option String
  /-- The result stream breaks after `k` rows have been delivered. -/
  stream : Option (Nat × String)

/-- A call during which the store reports no failure. -/
def Faults.none : Faults :=
  { exec := Option.none, lastInsertId := Option.none, rowsAffected := Option.none,
    scan := fun _ => Option.none, stream := Option.none }

/-- A `sql.Result`. -/
structure Result where
  LastInsertId : Except Error Int
  RowsAffected : Except Error Int

/-- A `*sql.Rows`: the rows `Next` will deliver, each with the outcome of its `Scan`,
and the value of `Err()` once `Next` has returned false. -/
structure Rows where
  pending : List (Except Error Row)
  err : Option Error

/-- The call `db.conn.Exec(query, args...)` for a statement whose effect on the table
is `run`. -/
def Exec (f : Faults) (t : Table) (run : Except Error (ExecResult × Table)) :
    Except Error Result × Table :=
  match f.exec with
  | some msg => (.error (.driver msg), t)
  | Option.none =>
    match run with
    | .error e => (.error e, t)
    | .ok (r, t') =>
      (.ok { LastInsertId :=
               match f.lastInsertId with
               | some msg => .error (.driver msg)
               | Option.none => .ok r.lastInsertId
             RowsAffected :=
               match f.rowsAffected with
               | some msg => .error (.driver msg)
               | Option.none => .ok r.affectedRows }, t')

/-- The outcomes of `Scan` on the rows of a result, numbered from `k`. -/
def scanFrom (f : Faults) : Nat → List Row → List (Except Error Row)
  | _, [] => []
  | k, r :: rest =>
    (match f.scan k with
     | some msg => .error (.driver msg)
     | Option.none => .ok r) :: scanFrom f (k + 1) rest

/-- The call `db.conn.Query(query, args...)` for a statement whose result set is
`result`. -/
def Query (f : Faults) (result : List Row) : Except Error Rows :=
  match f.exec with
  | some msg => .error (.driver msg)
  | Option.none =>
    match f.stream with
    | some (k, msg) =>
      .ok { pending := scanFrom f 0 (result.take k), err := some (.driver msg) }
    | Option.none => .ok { pending := scanFrom f 0 result, err := Option.none }

/-- The call `db.conn.QueryRow(query, args...).Scan(dest...)`: the error of the query,
else `sql.ErrNoRows` when `Next` delivers no row and `Err()` is nil, else the outcome
of scanning the first row, else the error of closing the rows. -/
def QueryRowScan (f : Faults) (result : List Row) : Except Error Row :=
  match Query f result with
  | .error e => .error e
  | .ok rows =>
    match rows.pending with
    | [] =>
      match rows.err with
      | some e => .error e
      | Option.none => .error .errNoRows
    | .error e :: _ => .error e
    | .ok r :: _ =>
      match rows.err with
      | some e => .error e
      | Option.none => .ok r

/-! ## database/database.go: the repository -/

/-- The destination of `Scan(&book.ID, &book.Title, &book.NumPages, &book.Author,
&book.Rating)`. -/
def Book.ofRow (r : Row) : Book :=
  { ID := r.id, Title := r.title, NumPages := r.num_pages, Author := r.author,
    Rating := r.rating }

/-- Go `func (db *Database) Create(book *models.Book) (*models.Book, error)`. -/
def Database.Create (f : Faults) (t : Table) (book : Book) :
    (Option Book × Option Error) × Table :=
  match Exec f t (t.insert book.Title book.NumPages book.Author book.Rating) with
  | (.error err, t') => ((Option.none, some (.wrapped "failed to create book" err)), t')
  | (.ok result, t') =>
    match result.LastInsertId with
    | .error err => ((Option.none, some (.wrapped "failed to get last insert ID" err)), t')
    | .ok id => ((some { book with ID := id }, Option.none), t')

/-- The loop `for rows.Next() { ... }` of `GetAll` and the `return books, nil` after it. -/
def Database.GetAll.loop : List (Except Error Row) → List Book → List Book × Option Error
  | [], books => (books, Option.none)
  | .error err :: _, _ => ([], some (.wrapped "failed to scan book" err))
  | .ok r :: rest, books => Database.GetAll.loop rest (books ++ [Book.ofRow r])

/-- Go `func (db *Database) GetAll() ([]*models.Book, error)`; a nil slice is the empty
list. -/
def Database.GetAll (f : Faults) (t : Table) : List Book × Option Error :=
  match Query f t.selectAll with
  | .error err => ([], some (.wrapped "failed to get books" err))
  | .ok rows => Database.GetAll.loop rows.pending []

/-- Go `func (db *Database) GetByID(id int) (*models.Book, error)`. -/
def Database.GetByID (f : Faults) (t : Table) (id : Int) : Option Book × Option Error :=
  match QueryRowScan f (t.selectByID id) with
  | .error .errNoRows => (Option.none, Option.none)
  | .error err => (Option.none, some (.wrapped "failed to get book" err))
  | .ok r => (some (Book.ofRow r), Option.none)

/-- Go `func (db *Database) Update(id int, book *models.Book) (*models.Book, error)`. -/
def Database.Update (f : Faults) (t : Table) (id : Int) (book : Book) :
    (Option Book × Option Error) × Table :=
  match Exec f t (t.update book.Title book.NumPages book.Author book.Rating id) with
  | (.error err, t') => ((Option.none, some (.wrapped "failed to update book" err)), t')
  | (.ok result, t') =>
    match result.RowsAffected with
    | .error err => ((Option.none, some (.wrapped "failed to get rows affected" err)), t')
    | .ok rowsAffected =>
      if rowsAffected = 0 then ((Option.none, Option.none), t')
      else ((some { book with ID := id }, Option.none), t')

/-- Go `func (db *Database) Delete(id int) (bool, error)`. -/
def Database.Delete (f : Faults) (t : Table) (id : Int) : (Bool × Option Error) × Table :=
  match Exec f t (.ok (t.delete id)) with
  | (.error err, t') => ((false, some (.wrapped "failed to delete book" err)), t')
  | (.ok result, t') =>
    match result.RowsAffected with
    | .error err => ((false, some (.wrapped "failed to get rows affected" err)), t')
    | .ok rowsAffected => ((decide (rowsAffected > 0), Option.none), t')

/-- A table with one stored book, used in the examples. -/
def shelf : Table :=
  { rows := [{ id := 1, title := "Dune", num_pages := 412, author := "Herbert", rating := 9 / 2 }],
    autoInc := 2 }

/-- A table with two stored books, used in the examples. -/
def shelf2 : Table :=
  { rows := [{ id := 1, title := "Dune", num_pages := 412, author := "Herbert", rating := 9 / 2 },
             { id := 2, title := "Emma", num_pages := 474, author := "Austen", rating := 4 }],
    autoInc := 3 }

/-- The empty table of a fresh bootstrap. -/
def emptyTable : Table := { rows := [], autoInc := 1 }

/-- A call during which the connection is lost after one row of the result has been
delivered. -/
def lostAfterOne : Faults :=
  { exec := Option.none, lastInsertId := Option.none, rowsAffected := Option.none,
    scan := fun _ => Option.none, stream := some (1, "invalid connection") }

/-- The `books` column values MySQL stores for a book: what `Create` and `Update`
write. -/
def Book.stored (b : Book) (id : Int) : Book :=
  { ID := id, Title := ⟨b.Title.data.take 255⟩, NumPages := b.NumPages,
    Author := ⟨b.Author.data.take 255⟩,
    Rating := (roundHalfAway (b.Rating * 100) : ℚ) / 100 }

/-! ## handlers/handlers.go -/

/-- Go `strconv.Atoi`: an optional sign, then one or more decimal digits, within the
range of a 64-bit `int`. -/
def Atoi (s : String) : Option Int :=
  let digits : List Char :=
    match s.data with
    | '-' :: ds => ds
    | '+' :: ds => ds
    | ds => ds
  if digits ≠ [] ∧ digits.all Char.isDigit = true then
    let n : Int := digits.foldl (fun acc c => acc * 10 + ((c.toNat : Int) - 48)) 0
    let v : Int := if s.data.head? = some '-' then -n else n
    if -9223372036854775808 ≤ v ∧ v ≤ 9223372036854775807 then some v else Option.none
  else Option.none

/-- The JSON bodies the handlers write. -/
inductive Body where
  /-- The object `gin.H{"error": msg}`. -/
  | error (msg : String)
  /-- The object `gin.H{"errors": m}`. -/
  | errors (m : GoMap)
  /-- One book. -/
  | book (b : Book)
  /-- A sequence of books. -/
  | books (bs : List Book)
  /-- No body (`c.Status`). -/
  | empty
  deriving DecidableEq

/-- An HTTP response: status code and body. -/
structure Response where
  status : Nat
  body : Body
  deriving DecidableEq

/-- A call a handler makes on the repository. -/
inductive RepoCall where
  | Create (book : Book)
  | GetAll
  | GetByID (id : Int)
  | Update (id : Int) (book : Book)
  | Delete (id : Int)
  deriving DecidableEq

/-- What serving one request does: the response written, the repository calls made, in
order, and the table afterwards. -/
structure Served where
  response : Response
  calls : List RepoCall
  table : Table

/-- Go `func (h *Handler) CreateBook(c *gin.Context)`; `bind` is the outcome of
`c.ShouldBindJSON(&book)`. -/
def Handler.CreateBook (f : Faults) (t : Table) (bind : Except Error Book) : Served :=
  match bind with
  | .error _ => { response := ⟨400, .error "Invalid request body"⟩, calls := [], table := t }
  | .ok book =>
    if book.Validate.len > 0 then
      { response := ⟨400, .errors book.Validate⟩, calls := [], table := t }
    else
      match Database.Create f t book with
      | ((_, some _), t') =>
        { response := ⟨500, .error "Failed to create book"⟩, calls := [.Create book],
          table := t' }
      | ((some createdBook, Option.none), t') =>
        { response := ⟨201, .book createdBook⟩, calls := [.Create book], table := t' }
      | ((Option.none, Option.none), t') =>
        { response := ⟨201, .empty⟩, calls := [.Create book], table := t' }

/-- Go `func (h *Handler) GetAllBooks(c *gin.Context)`. -/
def Handler.GetAllBooks (f : Faults) (t : Table) : Served :=
  match Database.GetAll f t with
  | (_, some _) =>
    { response := ⟨500, .error "Failed to retrieve books"⟩, calls := [.GetAll], table := t }
  | (books, Option.none) => { response := ⟨200, .books books⟩, calls := [.GetAll], table := t }

/-- Go `func (h *Handler) GetBook(c *gin.Context)`; `idParam` is `c.Param("id")`. -/
def Handler.GetBook (f : Faults) (t : Table) (idParam : String) : Served :=
  match Atoi idParam with
  | Option.none => { response := ⟨400, .error "Invalid book ID"⟩, calls := [], table := t }
  | some id =>
    match Database.GetByID f t id with
    | (_, some _) =>
      { response := ⟨500, .error "Failed to retrieve book"⟩, calls := [.GetByID id],
        table := t }
    | (Option.none, Option.none) =>
      { response := ⟨404, .error "Book not found"⟩, calls := [.GetByID id], table := t }
    | (some book, Option.none) =>
      { response := ⟨200, .book book⟩, calls := [.GetByID id], table := t }

/-- Go `func (h *Handler) UpdateBook(c *gin.Context)`. -/
def Handler.UpdateBook (f : Faults) (t : Table) (idParam : String)
    (bind : Except Error Book) : Served :=
  match Atoi idParam with
  | Option.none => { response := ⟨400, .error "Invalid book ID"⟩, calls := [], table := t }
  | some id =>
    match bind with
    | .error _ => { response := ⟨400, .error "Invalid request body"⟩, calls := [], table := t }
    | .ok book =>
      if book.Validate.len > 0 then
        { response := ⟨400, .errors book.Validate⟩, calls := [], table := t }
      else
        match Database.Update f t id book with
        | ((_, some _), t') =>
          { response := ⟨500, .error "Failed to update book"⟩, calls := [.Update id book],
            table := t' }
        | ((Option.none, Option.none), t') =>
          { response := ⟨404, .error "Book not found"⟩, calls := [.Update id book],
            table := t' }
        | ((some updatedBook, Option.none), t') =>
          { response := ⟨200, .book updatedBook⟩, calls := [.Update id book], table := t' }

/-- Go `func (h *Handler) DeleteBook(c *gin.Context)`. -/
def Handler.DeleteBook (f : Faults) (t : Table) (idParam : String) : Served :=
  match Atoi idParam with
  | Option.none => { response := ⟨400, .error "Invalid book ID"⟩, calls := [], table := t }
  | some id =>
    match Database.Delete f t id with
    | ((_, some _), t') =>
      { response := ⟨500, .error "Failed to delete book"⟩, calls := [.Delete id], table := t' }
    | ((false, Option.none), t') =>
      { response := ⟨404, .error "Book not found"⟩, calls := [.Delete id], table := t' }
    | ((true, Option.none), t') =>
      { response := ⟨204, .empty⟩, calls := [.Delete id], table := t' }

/-- The four validation constraints of a book. -/
def Book.Valid (b : Book) : Prop :=
  b.Title ≠ "" ∧ b.Author ≠ "" ∧ 0 ≤ b.NumPages ∧ 0 ≤ b.Rating ∧ b.Rating ≤ 5

/-! ## database/database.go: bootstrap

The schema statements run on one connection of a MySQL server.  `bootstrap` splices the
database name unquoted into two statement texts,
`fmt.Sprintf("CREATE DATABASE IF NOT EXISTS %s", dbName)` and
`fmt.Sprintf("USE %s", dbName)`.  What the server reads in such a text (a bare or a
back-quoted identifier, create options after the name, a reserved word, surrounding
white space) is decided by its grammar, which is not part of the repository: it is a
parameter of the model, and the theorems hold for every grammar.
-/

/-- One column of a table definition. -/
structure ColumnDef where
  name : String
  type : String
  attributes : String
  deriving DecidableEq

/-- A table definition: columns, primary key, secondary indexes, table options. -/
structure TableDef where
  columns : List ColumnDef
  primaryKey : String
  indexes : List (String × String)
  options : String
  deriving DecidableEq

/-- The definition in `createTableSQL`. -/
def booksTableDef : TableDef :=
  { columns :=
      [⟨"id", "INT", "AUTO_INCREMENT"⟩,
       ⟨"title", "VARCHAR(255)", "NOT NULL"⟩,
       ⟨"num_pages", "INT", "NOT NULL DEFAULT 0"⟩,
       ⟨"author", "VARCHAR(255)", "NOT NULL"⟩,
       ⟨"rating", "DECIMAL(3,2)", "NOT NULL DEFAULT 0.00"⟩,
       ⟨"created_at", "TIMESTAMP", "DEFAULT CURRENT_TIMESTAMP"⟩,
       ⟨"updated_at", "TIMESTAMP", "DEFAULT CURRENT_TIMESTAMP ON UPDATE CURRENT_TIMESTAMP"⟩],
    primaryKey := "id",
    indexes := [("idx_title", "title"), ("idx_author", "author")],
    options := "ENGINE=InnoDB DEFAULT CHARSET=utf8mb4 COLLATE=utf8mb4_unicode_ci" }

/-- A database of the server: its name, the options it was created with and its tables
by name. -/
structure Schema where
  name : String
  options : String
  tables : List (String × TableDef)
  deriving DecidableEq

/-- The schema state seen by the bootstrap connection: the databases of the server and
the database selected on the connection. -/
structure Server where
  databases : List Schema
  current : Option String
  deriving DecidableEq

/-- The server's grammar on the text spliced into the two statements: for
`CREATE DATABASE IF NOT EXISTS <text>` the database name and the create options it
reads, for `USE <text>` the database name it reads; `none` is a syntax error.  The two
readings are independent: a text may parse in one statement and not in the other. -/
structure Grammar where
  createDatabase : String → Option (String × String)
  use : String → Option String

/-- The statements of one run of `bootstrap` that the server or the connection refuses
for a reason outside the schema (access denied, connection lost), with the message
reported. -/
structure Refusals where
  createDatabase : Option String
  use : Option String
  createTable : Option String

/-- A run during which no statement is refused. -/
def Refusals.none : Refusals :=
  { createDatabase := Option.none, use := Option.none, createTable := Option.none }

/-- The statement `CREATE DATABASE IF NOT EXISTS <text>`: an existing database of that
name is left as it is. -/
def Server.createDatabaseIfNotExists (g : Grammar) (s : Server) (text : String) :
    Except Error Server :=
  match g.createDatabase text with
  | Option.none => .error (.driver "Error 1064: You have an error in your SQL syntax")
  | some (name, options) =>
    if s.databases.any (fun d => d.name == name) then .ok s
    else
      .ok { s with
        databases := s.databases ++ [{ name := name, options := options, tables := [] }] }

/-- The statement `USE <text>`. -/
def Server.use (g : Grammar) (s : Server) (text : String) : Except Error Server :=
  match g.use text with
  | Option.none => .error (.driver "Error 1064: You have an error in your SQL syntax")
  | some name =>
    if s.databases.any (fun d => d.name == name) then .ok { s with current := some name }
    else .error (.driver "Error 1049: Unknown database")

/-- The statement `CREATE TABLE IF NOT EXISTS <table> (...)` in the selected database:
an existing table of that name is left as it is. -/
def Server.createTableIfNotExists (s : Server) (table : String) (d : TableDef) :
    Except Error Server :=
  match s.current with
  | Option.none => .error (.driver "Error 1046: No database selected")
  | some name =>
    if s.databases.any (fun db => db.name == name) then
      .ok { s with
        databases := s.databases.map (fun db =>
          if db.name == name then
            if db.tables.any (fun e => e.1 == table) then db
            else { db with tables := db.tables ++ [(table, d)] }
          else db) }
    else .error (.driver "Error 1049: Unknown database")

/-- The call `db.Exec(statement)` of `bootstrap`: the refusal when the statement is
refused, else the outcome `run` of the statement on the server. -/
def ExecSchema (refused : Option String) (run : Except Error Server) : Except Error Server :=
  match refused with
  | some msg => .error (.driver msg)
  | Option.none => run

/-- Go `func bootstrap(db *sql.DB, dbName string) error`, with the state the server is
left in. -/
def bootstrap (g : Grammar) (f : Refusals) (s : Server) (dbName : String) :
    Option Error × Server :=
  match ExecSchema f.createDatabase (s.createDatabaseIfNotExists g dbName) with
  | .error err => (some (.wrapped "failed to create database" err), s)
  | .ok s1 =>
    match ExecSchema f.use (s1.use g dbName) with
    | .error err => (some (.wrapped "failed to use database" err), s1)
    | .ok s2 =>
      match ExecSchema f.createTable (s2.createTableIfNotExists "books" booksTableDef) with
      | .error err => (some (.wrapped "failed to create table" err), s2)
      | .ok s3 => (Option.none, s3)

/-- A server with no database and nothing selected. -/
def freshServer : Server := { databases := [], current := Option.none }

/-! # Theorems -/

/-! ## Validate -/

theorem GoMap.keys_set (m : GoMap) (k v x : String) :
    x ∈ (m.set k v).keys ↔ x ∈ m.keys ∨ x = k := by
  unfold GoMap.set GoMap.keys
  by_cases h : m.any (fun e => e.1 == k) = true
  · rw [if_pos h]
    simp only [List.any_eq_true, beq_iff_eq] at h
    obtain ⟨e, he, hk⟩ := h
    simp only [List.mem_map, List.map_map]
    constructor
    · rintro ⟨a, ha, rfl⟩
      by_cases hak : a.1 = k
      · right; simp [hak]
      · left; exact ⟨a, ha, by simp [hak]⟩
    · rintro (⟨a, ha, rfl⟩ | rfl)
      · exact ⟨a, ha, by by_cases hak : a.1 = k <;> simp [hak]⟩
      · exact ⟨e, he, by simp [hk]⟩
  · rw [if_neg h]
    simp [List.mem_append]

theorem Validate_mem_keys (b : Book) (k : String) :
    k ∈ b.Validate.keys ↔
      (k = "title" ∧ b.Title = "") ∨ (k = "author" ∧ b.Author = "") ∨
      (k = "numPages" ∧ b.NumPages < 0) ∨ (k = "rating" ∧ (b.Rating < 0 ∨ b.Rating > 5)) := by
  unfold Book.Validate
  by_cases h1 : b.Title = "" <;> by_cases h2 : b.Author = "" <;>
    by_cases h3 : b.NumPages < 0 <;> by_cases h4 : (b.Rating < 0 ∨ b.Rating > 5) <;>
    simp only [h1, h2, h3, h4, if_true, if_false, GoMap.keys_set] <;>
    simp [GoMap.keys] <;> tauto

theorem Validate_eq_nil (b : Book) :
    b.Validate = [] ↔
      b.Title ≠ "" ∧ b.Author ≠ "" ∧ 0 ≤ b.NumPages ∧ 0 ≤ b.Rating ∧ b.Rating ≤ 5 := by
  constructor
  · intro h
    have hk : ∀ k, ¬ k ∈ b.Validate.keys := by
      intro k; rw [h]; simp [GoMap.keys]
    have e1 := hk "title"
    have e2 := hk "author"
    have e3 := hk "numPages"
    have e4 := hk "rating"
    rw [Validate_mem_keys] at e1 e2 e3 e4
    simp only [true_and, not_or] at e1 e2 e3 e4
    refine ⟨e1.1, e2.2.1, not_lt.1 e3.2.2.1, not_lt.1 e4.2.2.2.1, ?_⟩
    exact not_lt.1 e4.2.2.2.2
  · rintro ⟨h1, h2, h3, h4, h5⟩
    unfold Book.Validate
    have h4 : ¬ (b.Rating < 0 ∨ b.Rating > 5) := by
      rintro (h | h)
      · exact absurd h4 (not_le.2 h)
      · exact absurd h5 (not_le.2 h)
    simp only [h1, h2, not_lt.2 h3, h4, if_false]

theorem dune_valid : dune.Validate = [] := by
  rw [Validate_eq_nil]
  simp only [dune]
  exact ⟨by decide, by decide, by decide, by norm_num, by norm_num⟩

/-- C1: the keys of `Validate` are exactly the violated fields, all of them together,
and the mapping is empty exactly when no field is violated, as for the Dune example. -/
theorem Validate_keys_exact (b : Book) :
    ("title" ∈ b.Validate.keys ↔ b.Title = "") ∧
    ("author" ∈ b.Validate.keys ↔ b.Author = "") ∧
    ("numPages" ∈ b.Validate.keys ↔ b.NumPages < 0) ∧
    ("rating" ∈ b.Validate.keys ↔ ¬ (0 ≤ b.Rating ∧ b.Rating ≤ 5)) ∧
    (∀ k ∈ b.Validate.keys, k = "title" ∨ k = "author" ∨ k = "numPages" ∨ k = "rating") ∧
    (b.Validate = [] ↔
      b.Title ≠ "" ∧ b.Author ≠ "" ∧ 0 ≤ b.NumPages ∧ 0 ≤ b.Rating ∧ b.Rating ≤ 5) ∧
    dune.Validate = [] := by
  refine ⟨?_, ?_, ?_, ?_, ?_, Validate_eq_nil b, ?_⟩
  · rw [Validate_mem_keys]; simp
  · rw [Validate_mem_keys]; simp
  · rw [Validate_mem_keys]; simp
  · rw [Validate_mem_keys]
    simp only [true_and]
    constructor
    · rintro (h | h | h | h)
      · exact absurd h.1 (by decide)
      · exact absurd h.1 (by decide)
      · exact absurd h.1 (by decide)
      · rintro ⟨h0, h5⟩
        rcases h with h | h
        · exact absurd h0 (not_le.2 h)
        · exact absurd h5 (not_le.2 h)
    · intro h
      right; right; right
      by_contra hc
      exact h ⟨not_lt.1 (fun x => hc (Or.inl x)), not_lt.1 (fun x => hc (Or.inr x))⟩
  · intro k hk
    rw [Validate_mem_keys] at hk
    tauto
  · exact dune_valid

/-! ## Column conversions -/

theorem roundHalfAway_eq_of_nonneg (q : ℚ) (n : Int) (h0 : 0 ≤ q)
    (h1 : (n : ℚ) ≤ q + 1 / 2) (h2 : q + 1 / 2 < (n : ℚ) + 1) : roundHalfAway q = n := by
  unfold roundHalfAway
  rw [if_pos h0]
  exact Int.floor_eq_iff.2 ⟨h1, h2⟩

theorem roundHalfAway_intCast (n : Int) : roundHalfAway (n : ℚ) = n := by
  unfold roundHalfAway
  split
  · exact Int.floor_eq_iff.2 ⟨by linarith, by linarith⟩
  · have : ⌊-(n : ℚ) + 1 / 2⌋ = -n :=
      Int.floor_eq_iff.2 ⟨by push_cast; linarith, by push_cast; linarith⟩
    rw [this, neg_neg]

theorem storeDecimal32_precise : storeDecimal32 (4567 / 1000) = .ok (457 / 100) := by
  have h : roundHalfAway (4567 / 1000 * 100) = 457 :=
    roundHalfAway_eq_of_nonneg _ 457 (by norm_num) (by norm_num) (by norm_num)
  simp [storeDecimal32, h]

theorem storeDecimal32_dune : storeDecimal32 (9 / 2) = .ok (9 / 2) := by
  have h : roundHalfAway (9 / 2 * 100) = 450 :=
    roundHalfAway_eq_of_nonneg _ 450 (by norm_num) (by norm_num) (by norm_num)
  simp [storeDecimal32, h]
  norm_num

theorem storeDecimal32_ok (q ra : ℚ) (h : storeDecimal32 q = .ok ra) :
    ra = (roundHalfAway (q * 100) : ℚ) / 100 := by
  unfold storeDecimal32 at h
  simp only at h
  split at h
  · injection h with h; exact h.symm
  · cases h

theorem storeInt_ok (n m : Int) (h : storeInt n = .ok m) : m = n := by
  unfold storeInt at h
  split at h
  · injection h with h; exact h.symm
  · cases h

theorem storeVarchar255_short (s : String) (h : s.data.length ≤ 255) :
    storeVarchar255 s = .ok s := by
  unfold storeVarchar255
  rw [if_pos h]

theorem storeVarchar255_ok (s ti : String) (h : storeVarchar255 s = .ok ti) :
    ti = ⟨s.data.take 255⟩ := by
  unfold storeVarchar255 at h
  split at h
  · injection h with h
    subst h
    rw [List.take_of_length_le (by assumption)]
  · split at h
    · injection h with h; exact h.symm
    · cases h

/-! ## The statements -/

theorem insert_ok (t t' : Table) (title author : String) (n : Int) (rating : ℚ)
    (res : ExecResult) (h : t.insert title n author rating = .ok (res, t')) :
    res.lastInsertId = t.autoInc ∧ (∀ r ∈ t.rows, r.id ≠ t.autoInc) ∧
      t' = { rows := t.rows ++ [{ id := t.autoInc, title := ⟨title.data.take 255⟩,
                                  num_pages := n, author := ⟨author.data.take 255⟩,
                                  rating := (roundHalfAway (rating * 100) : ℚ) / 100 }],
             autoInc := t.autoInc + 1 } := by
  unfold Table.insert at h
  split at h
  · rename_i ti m au ra h1 h2 h3 h4
    split at h
    · cases h
    · split at h
      · cases h
      · rename_i hdup
        injection h with h
        injection h with hr ht
        have e1 := storeVarchar255_ok _ _ h1
        have e2 := storeInt_ok _ _ h2
        have e3 := storeVarchar255_ok _ _ h3
        have e4 := storeDecimal32_ok _ _ h4
        subst e1 e2 e3 e4
        refine ⟨by rw [← hr], ?_, ht.symm⟩
        intro r hr' hid
        apply hdup
        simp only [List.any_eq_true, beq_iff_eq]
        exact ⟨r, hr', hid⟩
  all_goals cases h

theorem Create_ok (f : Faults) (t t' : Table) (book created : Book)
    (h : Database.Create f t book = ((some created, Option.none), t')) :
    created = { book with ID := t.autoInc } ∧ (∀ r ∈ t.rows, r.id ≠ t.autoInc) ∧
      t' = { rows := t.rows ++ [{ id := t.autoInc, title := ⟨book.Title.data.take 255⟩,
                                  num_pages := book.NumPages,
                                  author := ⟨book.Author.data.take 255⟩,
                                  rating := (roundHalfAway (book.Rating * 100) : ℚ) / 100 }],
             autoInc := t.autoInc + 1 } := by
  unfold Database.Create Exec at h
  cases hf : f.exec with
  | some msg => simp [hf] at h
  | none =>
    cases hi : t.insert book.Title book.NumPages book.Author book.Rating with
    | error e => simp [hf, hi] at h
    | ok p =>
      obtain ⟨res, t1⟩ := p
      obtain ⟨h1, h2, h3⟩ := insert_ok _ _ _ _ _ _ _ hi
      cases hl : f.lastInsertId with
      | some msg => simp [hf, hi, hl] at h
      | none =>
        simp only [hf, hi, hl] at h
        injection h with ha hb
        injection ha with ha _
        injection ha with ha
        subst hb
        exact ⟨by rw [← ha, h1], h2, h3⟩

theorem GetByID_found (t : Table) (id : Int) (r : Row) (rest : List Row)
    (h : t.selectByID id = r :: rest) :
    Database.GetByID Faults.none t id = (some (Book.ofRow r), Option.none) := by
  simp [Database.GetByID, QueryRowScan, Query, Faults.none, h, scanFrom]

theorem GetByID_absent (t : Table) (id : Int) (h : t.selectByID id = []) :
    Database.GetByID Faults.none t id = (Option.none, Option.none) := by
  simp [Database.GetByID, QueryRowScan, Query, Faults.none, h, scanFrom]

theorem selectByID_eq_nil (t : Table) (id : Int) (h : ∀ r ∈ t.rows, r.id ≠ id) :
    t.selectByID id = [] := by
  unfold Table.selectByID
  rw [List.filter_eq_nil_iff]
  intro r hr
  simpa using h r hr

/-- C2 (amended): after a successful `Create`, `GetByID` of the assigned id returns the
record as the columns store it: same `numPages`, title and author cut to 255 characters
(unchanged when they fit), rating rounded to two decimals (unchanged when it has at most
two). -/
theorem Create_GetByID_stored (f : Faults) (t t' : Table) (book created : Book)
    (h : Database.Create f t book = ((some created, Option.none), t')) :
    Database.GetByID Faults.none t' created.ID = (some (book.stored created.ID), Option.none) ∧
    (book.stored created.ID).ID = created.ID ∧
    (book.stored created.ID).NumPages = book.NumPages ∧
    (book.Title.data.length ≤ 255 → (book.stored created.ID).Title = book.Title) ∧
    (book.Author.data.length ≤ 255 → (book.stored created.ID).Author = book.Author) ∧
    ((∃ n : Int, book.Rating * 100 = n) → (book.stored created.ID).Rating = book.Rating) := by
  obtain ⟨h1, h2, h3⟩ := Create_ok f t t' book created h
  have hid : created.ID = t.autoInc := by rw [h1]
  refine ⟨?_, rfl, rfl, ?_, ?_, ?_⟩
  · have hs : t'.selectByID created.ID =
        [{ id := t.autoInc, title := ⟨book.Title.data.take 255⟩, num_pages := book.NumPages,
           author := ⟨book.Author.data.take 255⟩,
           rating := (roundHalfAway (book.Rating * 100) : ℚ) / 100 }] := by
      rw [h3, hid]
      unfold Table.selectByID
      have := selectByID_eq_nil t t.autoInc h2
      unfold Table.selectByID at this
      simp [List.filter_append, this]
    rw [GetByID_found t' created.ID _ _ hs, hid]
    rfl
  · intro hl
    simp only [Book.stored]
    rw [List.take_of_length_le hl]
  · intro hl
    simp only [Book.stored]
    rw [List.take_of_length_le hl]
  · rintro ⟨n, hn⟩
    simp only [Book.stored]
    rw [hn, roundHalfAway_intCast, ← hn]
    field_simp

theorem Create_dune :
    Database.Create Faults.none emptyTable dune =
      ((some { dune with ID := 1 }, Option.none), shelf) := by
  simp [Database.Create, Exec, Faults.none, Table.insert, emptyTable, storeDecimal32_dune,
    storeVarchar255, storeInt, dune, shelf]

/-- C2 witness: the Dune example, created in the empty table. -/
theorem Create_GetByID_stored_witness :
    Database.Create Faults.none emptyTable dune =
      ((some { dune with ID := 1 }, Option.none), shelf) ∧
    Database.GetByID Faults.none shelf 1 = (some (dune.stored 1), Option.none) ∧
    (dune.stored 1).Rating = dune.Rating :=
  ⟨Create_dune,
   (Create_GetByID_stored Faults.none emptyTable shelf dune { dune with ID := 1 } Create_dune).1,
   (Create_GetByID_stored Faults.none emptyTable shelf dune { dune with ID := 1 }
      Create_dune).2.2.2.2.2 ⟨450, by norm_num [dune]⟩⟩

/-- A valid book whose rating has three decimals. -/
theorem precise_valid :
    ({ ID := 0, Title := "Dune", NumPages := 412, Author := "Herbert",
       Rating := 4567 / 1000 } : Book).Validate = [] := by
  rw [Validate_eq_nil]
  refine ⟨by decide, by decide, by decide, by norm_num, by norm_num⟩

/-- C2 counterexample: a valid book with rating 4.567 is created with id 1, and
`GetByID 1` returns rating 4.57. -/
theorem Create_GetByID_not_equal :
    ({ ID := 0, Title := "Dune", NumPages := 412, Author := "Herbert",
       Rating := 4567 / 1000 } : Book).Validate = [] ∧
    Database.Create Faults.none emptyTable
        { ID := 0, Title := "Dune", NumPages := 412, Author := "Herbert", Rating := 4567 / 1000 } =
      ((some { ID := 1, Title := "Dune", NumPages := 412, Author := "Herbert",
               Rating := 4567 / 1000 }, Option.none),
       { rows := [{ id := 1, title := "Dune", num_pages := 412, author := "Herbert",
                    rating := 457 / 100 }], autoInc := 2 }) ∧
    Database.GetByID Faults.none
        { rows := [{ id := 1, title := "Dune", num_pages := 412, author := "Herbert",
                     rating := 457 / 100 }], autoInc := 2 } 1 =
      (some { ID := 1, Title := "Dune", NumPages := 412, Author := "Herbert",
              Rating := 457 / 100 }, Option.none) ∧
    (457 / 100 : ℚ) ≠ 4567 / 1000 := by
  refine ⟨precise_valid, ?_, ?_, by norm_num⟩
  · simp [Database.Create, Exec, Faults.none, Table.insert, emptyTable, storeDecimal32_precise,
      storeVarchar255, storeInt]
  · simp [Database.GetByID, QueryRowScan, Query, Faults.none, Table.selectByID, scanFrom,
      Book.ofRow]

/-! ## Update and GetAll on the example tables -/

/-- C3: the row with id 1 exists and the book is valid, yet `Update(1, book)` with the
values already stored reports zero affected rows and returns the not-found signal; the
handler answers 404. -/
theorem Update_same_values_not_found :
    Database.GetByID Faults.none shelf 1 = (some { dune with ID := 1 }, Option.none) ∧
    dune.Validate = [] ∧
    Database.Update Faults.none shelf 1 dune = ((Option.none, Option.none), shelf) ∧
    (Handler.UpdateBook Faults.none shelf "1" (.ok dune)).response =
      ⟨404, .error "Book not found"⟩ := by
  have hv : dune.Validate = [] := dune_valid
  have hu : Database.Update Faults.none shelf 1 dune = ((Option.none, Option.none), shelf) := by
    simp [Database.Update, Exec, Faults.none, Table.update, shelf, dune, storeDecimal32_dune,
      storeVarchar255, storeInt]
  refine ⟨?_, hv, hu, ?_⟩
  · simp [Database.GetByID, QueryRowScan, Query, Faults.none, Table.selectByID, scanFrom,
      Book.ofRow, shelf, dune]
  · have ha : Atoi "1" = some 1 := by decide
    simp [Handler.UpdateBook, ha, hv, GoMap.len, hu]

/-- C4: the connection is lost after the first of two rows; `GetAll` returns the one
book it has read with a nil error, and the handler answers 200. -/
theorem GetAll_discards_stream_error :
    Database.GetAll Faults.none shelf2 =
      ([{ ID := 1, Title := "Dune", NumPages := 412, Author := "Herbert", Rating := 9 / 2 },
        { ID := 2, Title := "Emma", NumPages := 474, Author := "Austen", Rating := 4 }],
       Option.none) ∧
    Database.GetAll lostAfterOne shelf2 =
      ([{ ID := 1, Title := "Dune", NumPages := 412, Author := "Herbert", Rating := 9 / 2 }],
       Option.none) ∧
    (Handler.GetAllBooks lostAfterOne shelf2).response.status = 200 := by
  have h : Database.GetAll lostAfterOne shelf2 =
      ([{ ID := 1, Title := "Dune", NumPages := 412, Author := "Herbert", Rating := 9 / 2 }],
       Option.none) := by
    simp [Database.GetAll, Query, lostAfterOne, Table.selectAll, shelf2, scanFrom,
      Database.GetAll.loop, Book.ofRow, List.insertionSort, List.orderedInsert]
  refine ⟨?_, h, ?_⟩
  · simp [Database.GetAll, Query, Faults.none, Table.selectAll, shelf2, scanFrom,
      Database.GetAll.loop, Book.ofRow, List.insertionSort, List.orderedInsert]
  · simp [Handler.GetAllBooks, h]

/-! ## GetByID -/

theorem QueryRowScan_exec (f : Faults) (res : List Row) (m : String) (h : f.exec = some m) :
    QueryRowScan f res = .error (.driver m) := by
  simp [QueryRowScan, Query, h]

theorem QueryRowScan_stream (f : Faults) (res : List Row) (k : Nat) (m : String)
    (he : f.exec = Option.none) (hs : f.stream = some (k, m)) :
    ∃ msg, QueryRowScan f res = .error (.driver msg) ∧ (msg = m ∨ f.scan 0 = some msg) := by
  unfold QueryRowScan Query
  simp only [he, hs]
  cases hl : List.take k res with
  | nil => exact ⟨m, by simp [scanFrom], Or.inl rfl⟩
  | cons r rest =>
    cases hsc : f.scan 0 with
    | none => exact ⟨m, by simp [scanFrom, hsc], Or.inl rfl⟩
    | some msg => exact ⟨msg, by simp [scanFrom, hsc], Or.inr rfl⟩

theorem QueryRowScan_nil (f : Faults) (he : f.exec = Option.none)
    (hs : f.stream = Option.none) : QueryRowScan f [] = .error .errNoRows := by
  simp [QueryRowScan, Query, he, hs, scanFrom]

theorem QueryRowScan_cons (f : Faults) (r : Row) (rest : List Row)
    (he : f.exec = Option.none) (hs : f.stream = Option.none) :
    QueryRowScan f (r :: rest) =
      match f.scan 0 with
      | some m => .error (.driver m)
      | Option.none => .ok r := by
  unfold QueryRowScan Query
  simp only [he, hs, scanFrom]
  cases f.scan 0 <;> rfl

theorem selectByID_cons (t : Table) (id : Int) (r : Row) (rest : List Row)
    (h : t.selectByID id = r :: rest) : r ∈ t.rows ∧ r.id = id := by
  have hm : r ∈ t.selectByID id := by rw [h]; exact List.mem_cons_self _ _
  unfold Table.selectByID at hm
  rw [List.mem_filter] at hm
  exact ⟨hm.1, by simpa using hm.2⟩

theorem selectByID_ne_nil (t : Table) (id : Int) (h : ∃ r ∈ t.rows, r.id = id) :
    ∃ r rest, t.selectByID id = r :: rest := by
  obtain ⟨r, hr, hid⟩ := h
  have hm : r ∈ t.selectByID id := by
    unfold Table.selectByID
    rw [List.mem_filter]
    exact ⟨hr, by simpa using hid⟩
  cases hs : t.selectByID id with
  | nil => rw [hs] at hm; cases hm
  | cons a rest => exact ⟨a, rest, rfl⟩

theorem GetByID_of_driver (f : Faults) (t : Table) (id : Int) (m : String)
    (h : QueryRowScan f (t.selectByID id) = .error (.driver m)) :
    Database.GetByID f t id =
      (Option.none, some (.wrapped "failed to get book" (.driver m))) := by
  simp [Database.GetByID, h]

/-- C5: `GetByID` has three outcomes, told apart by what the store reports: the book
with `ID = id` when the row exists and nothing fails; `(nil, nil)` exactly when the
store reports no failure and no row with that id; `(nil, err)`, `err` wrapping the
cause, when the store reports a failure. -/
theorem GetByID_three_outcomes (f : Faults) (t : Table) (id : Int) :
    ((f.exec = Option.none ∧ f.stream = Option.none ∧ f.scan 0 = Option.none ∧
        ∃ r ∈ t.rows, r.id = id) →
      ∃ b, Database.GetByID f t id = (some b, Option.none) ∧ b.ID = id ∧
        ∃ r ∈ t.rows, b = Book.ofRow r) ∧
    (Database.GetByID f t id = (Option.none, Option.none) ↔
      f.exec = Option.none ∧ f.stream = Option.none ∧ ∀ r ∈ t.rows, r.id ≠ id) ∧
    ((f.exec ≠ Option.none ∨ f.stream ≠ Option.none ∨
        (f.scan 0 ≠ Option.none ∧ ∃ r ∈ t.rows, r.id = id)) →
      ∃ msg, Database.GetByID f t id =
          (Option.none, some (.wrapped "failed to get book" (.driver msg))) ∧
        (f.exec = some msg ∨ f.scan 0 = some msg ∨ ∃ k, f.stream = some (k, msg))) := by
  refine ⟨?_, ?_, ?_⟩
  · rintro ⟨he, hs, hsc, hex⟩
    obtain ⟨r, rest, hsel⟩ := selectByID_ne_nil t id hex
    obtain ⟨hr, hid⟩ := selectByID_cons t id r rest hsel
    refine ⟨Book.ofRow r, ?_, hid, r, hr, rfl⟩
    have := QueryRowScan_cons f r rest he hs
    rw [hsc] at this
    simp [Database.GetByID, hsel, this]
  · constructor
    · intro h
      cases he : f.exec with
      | some m =>
        rw [GetByID_of_driver f t id m (QueryRowScan_exec f _ m he)] at h
        cases h
      | none =>
        cases hs : f.stream with
        | some p =>
          obtain ⟨k, m⟩ := p
          obtain ⟨msg, hq, _⟩ := QueryRowScan_stream f (t.selectByID id) k m he hs
          rw [GetByID_of_driver f t id msg hq] at h
          cases h
        | none =>
          refine ⟨rfl, rfl, ?_⟩
          intro r hr hid
          obtain ⟨a, rest, hsel⟩ := selectByID_ne_nil t id ⟨r, hr, hid⟩
          have hq := QueryRowScan_cons f a rest he hs
          cases hsc : f.scan 0 with
          | some m =>
            rw [hsc] at hq
            rw [← hsel] at hq
            rw [GetByID_of_driver f t id m hq] at h
            cases h
          | none =>
            rw [hsc] at hq
            simp [Database.GetByID, hsel, hq] at h
    · rintro ⟨he, hs, hno⟩
      have hsel := selectByID_eq_nil t id hno
      simp [Database.GetByID, hsel, QueryRowScan_nil f he hs]
  · rintro (he | hs | ⟨hsc, hex⟩)
    · cases hx : f.exec with
      | none => exact absurd hx he
      | some m =>
        exact ⟨m, GetByID_of_driver f t id m (QueryRowScan_exec f _ m hx), Or.inl rfl⟩
    · cases hx : f.exec with
      | some m =>
        exact ⟨m, GetByID_of_driver f t id m (QueryRowScan_exec f _ m hx), Or.inl rfl⟩
      | none =>
        cases hy : f.stream with
        | none => exact absurd hy hs
        | some p =>
          obtain ⟨k, m⟩ := p
          obtain ⟨msg, hq, hm⟩ := QueryRowScan_stream f (t.selectByID id) k m hx hy
          refine ⟨msg, GetByID_of_driver f t id msg hq, ?_⟩
          rcases hm with hm | hm
          · right; right; exact ⟨k, by rw [hm]⟩
          · right; left; exact hm
    · cases hx : f.exec with
      | some m =>
        exact ⟨m, GetByID_of_driver f t id m (QueryRowScan_exec f _ m hx), Or.inl rfl⟩
      | none =>
        cases hy : f.stream with
        | some p =>
          obtain ⟨k, m⟩ := p
          obtain ⟨msg, hq, hm⟩ := QueryRowScan_stream f (t.selectByID id) k m hx hy
          refine ⟨msg, GetByID_of_driver f t id msg hq, ?_⟩
          rcases hm with hm | hm
          · right; right; exact ⟨k, by rw [hm]⟩
          · right; left; exact hm
        | none =>
          obtain ⟨a, rest, hsel⟩ := selectByID_ne_nil t id hex
          have hq := QueryRowScan_cons f a rest hx hy
          cases hz : f.scan 0 with
          | none => exact absurd hz hsc
          | some m =>
            rw [hz] at hq
            rw [← hsel] at hq
            exact ⟨m, GetByID_of_driver f t id m hq, Or.inr (Or.inl rfl)⟩

/-! ## Update and Delete -/

theorem any_id_false (rows : List Row) (id : Int) (h : ∀ r ∈ rows, r.id ≠ id) :
    rows.any (fun r => r.id == id) = false := by
  rw [List.any_eq_false]
  intro r hr
  simpa using h r hr

theorem update_absent (t : Table) (title author : String) (n : Int) (rating : ℚ) (id : Int)
    (h : ∀ r ∈ t.rows, r.id ≠ id) :
    t.update title n author rating id = .ok ({ lastInsertId := 0, affectedRows := 0 }, t) := by
  unfold Table.update
  rw [any_id_false t.rows id h]
  rfl

/-- C6: `Update` of an id that has no row returns the not-found signal and leaves the
table as it was, so `GetAll` returns the same records before and after; whatever the
store reports during the call, no row changes. -/
theorem Update_absent_unchanged (t : Table) (id : Int) (book : Book)
    (h : ∀ r ∈ t.rows, r.id ≠ id) :
    Database.Update Faults.none t id book = ((Option.none, Option.none), t) ∧
    (∀ g : Faults, Database.GetAll g (Database.Update Faults.none t id book).2 =
      Database.GetAll g t) ∧
    (∀ f : Faults, (Database.Update f t id book).2 = t ∧
      (Database.Update f t id book).1.1 = Option.none) := by
  have hu := update_absent t book.Title book.Author book.NumPages book.Rating id h
  have h0 : Database.Update Faults.none t id book = ((Option.none, Option.none), t) := by
    simp [Database.Update, Exec, Faults.none, hu]
  refine ⟨h0, ?_, ?_⟩
  · intro g
    rw [h0]
  · intro f
    unfold Database.Update Exec
    rw [hu]
    cases f.exec <;> cases f.rowsAffected <;> simp

/-- C6 witness: the one-book table and the id 2. -/
theorem Update_absent_unchanged_witness :
    (∀ r ∈ shelf.rows, r.id ≠ 2) ∧
    Database.Update Faults.none shelf 2 dune = ((Option.none, Option.none), shelf) :=
  ⟨by simp [shelf], (Update_absent_unchanged shelf 2 dune (by simp [shelf])).1⟩

theorem delete_rows (t : Table) (id : Int) :
    (t.delete id).2.rows = t.rows.filter (fun r => !(r.id == id)) := rfl

theorem Delete_none (t : Table) (id : Int) :
    Database.Delete Faults.none t id =
      ((decide ((t.rows.filter (fun r => r.id == id)).length > 0), Option.none),
       { rows := t.rows.filter (fun r => !(r.id == id)), autoInc := t.autoInc }) := by
  simp [Database.Delete, Exec, Faults.none, Table.delete]

theorem filter_ne_absent (rows : List Row) (id : Int) :
    ∀ r ∈ rows.filter (fun r => !(r.id == id)), r.id ≠ id := by
  intro r hr
  rw [List.mem_filter] at hr
  simpa using hr.2

/-- C7: deleting an existing id twice returns `(true, nil)` then `(false, nil)`; after
either call the id has no row and `GetByID` returns the not-found signal, and the rows
of every other id are the ones that were there, in the same order; deleting an id with
no row returns `(false, nil)` and changes nothing. -/
theorem Delete_twice (t : Table) (id : Int) (h : ∃ r ∈ t.rows, r.id = id) :
    (Database.Delete Faults.none t id).1 = (true, Option.none) ∧
    (Database.Delete Faults.none (Database.Delete Faults.none t id).2 id).1 =
      (false, Option.none) ∧
    Database.GetByID Faults.none (Database.Delete Faults.none t id).2 id =
      (Option.none, Option.none) ∧
    Database.GetByID Faults.none
        (Database.Delete Faults.none (Database.Delete Faults.none t id).2 id).2 id =
      (Option.none, Option.none) ∧
    (Database.Delete Faults.none t id).2.rows = t.rows.filter (fun r => r.id ≠ id) ∧
    (Database.Delete Faults.none (Database.Delete Faults.none t id).2 id).2 =
      (Database.Delete Faults.none t id).2 ∧
    (∀ r, r.id ≠ id → (r ∈ (Database.Delete Faults.none t id).2.rows ↔ r ∈ t.rows)) ∧
    (∀ (u : Table) (j : Int), (∀ r ∈ u.rows, r.id ≠ j) →
      Database.Delete Faults.none u j = ((false, Option.none), u)) := by
  have hgone : ∀ r ∈ (Database.Delete Faults.none t id).2.rows, r.id ≠ id := by
    rw [Delete_none]
    exact filter_ne_absent t.rows id
  have habs : ∀ (u : Table) (j : Int), (∀ r ∈ u.rows, r.id ≠ j) →
      Database.Delete Faults.none u j = ((false, Option.none), u) := by
    intro u j hu
    rw [Delete_none]
    have h1 : u.rows.filter (fun r => r.id == j) = [] := by
      rw [List.filter_eq_nil_iff]
      intro r hr
      simpa using hu r hr
    have h2 : u.rows.filter (fun r => !(r.id == j)) = u.rows := by
      rw [List.filter_eq_self]
      intro r hr
      simpa using hu r hr
    rw [h1, h2]
    rfl
  have h2 := habs _ id hgone
  refine ⟨?_, ?_, ?_, ?_, ?_, ?_, ?_, habs⟩
  · rw [Delete_none]
    obtain ⟨r, hr, hid⟩ := h
    have hm : r ∈ t.rows.filter (fun r => r.id == id) := by
      rw [List.mem_filter]
      exact ⟨hr, by simpa using hid⟩
    have : 0 < (t.rows.filter (fun r => r.id == id)).length := List.length_pos_of_mem hm
    simp [this]
  · rw [h2]
  · exact GetByID_absent _ id (selectByID_eq_nil _ id hgone)
  · rw [h2]
    exact GetByID_absent _ id (selectByID_eq_nil _ id hgone)
  · rw [Delete_none]
    apply List.filter_congr
    intro r _
    by_cases hr : r.id = id <;> simp [hr]
  · rw [h2]
  · intro r hr
    rw [Delete_none]
    simp [List.mem_filter, hr]

/-- C7 witness: deleting the book with id 1 from the one-book table. -/
theorem Delete_twice_witness :
    (∃ r ∈ shelf.rows, r.id = 1) ∧
    (Database.Delete Faults.none shelf 1).1 = (true, Option.none) ∧
    (Database.Delete Faults.none (Database.Delete Faults.none shelf 1).2 1).1 =
      (false, Option.none) :=
  ⟨⟨_, List.mem_cons_self _ _, rfl⟩,
   (Delete_twice shelf 1 ⟨_, List.mem_cons_self _ _, rfl⟩).1,
   (Delete_twice shelf 1 ⟨_, List.mem_cons_self _ _, rfl⟩).2.1⟩

/-! ## GetAll -/

theorem GetAll_loop_none (rows : List Row) (k : Nat) (acc : List Book) :
    Database.GetAll.loop (scanFrom Faults.none k rows) acc =
      (acc ++ rows.map Book.ofRow, Option.none) := by
  induction rows generalizing k acc with
  | nil => simp [scanFrom, Database.GetAll.loop]
  | cons r rest ih =>
    simp only [scanFrom, Faults.none, Database.GetAll.loop]
    have := ih (k + 1) (acc ++ [Book.ofRow r])
    simp only [Faults.none] at this
    rw [this]
    simp

theorem GetAll_none (t : Table) :
    Database.GetAll Faults.none t = (t.selectAll.map Book.ofRow, Option.none) := by
  have h := GetAll_loop_none t.selectAll 0 []
  unfold Database.GetAll Query
  simpa [Faults.none] using h

theorem selectAll_perm (t : Table) : t.selectAll.Perm t.rows :=
  List.perm_insertionSort _ _

theorem selectAll_sorted (t : Table) :
    List.Pairwise (fun a b : Row => a.id ≤ b.id) t.selectAll := by
  haveI : IsTotal Row (fun a b : Row => a.id ≤ b.id) := ⟨fun a b => le_total a.id b.id⟩
  haveI : IsTrans Row (fun a b : Row => a.id ≤ b.id) := ⟨fun _ _ _ h1 h2 => le_trans h1 h2⟩
  exact List.sorted_insertionSort (fun a b : Row => a.id ≤ b.id) t.rows

theorem selectAll_strict (t : Table) (h : (t.rows.map Row.id).Nodup) :
    List.Pairwise (fun a b : Row => a.id < b.id) t.selectAll := by
  have hn : (t.selectAll.map Row.id).Nodup :=
    (((selectAll_perm t).map Row.id).nodup_iff).2 h
  have hp : List.Pairwise (fun a b : Row => a.id ≠ b.id) t.selectAll :=
    List.pairwise_map.1 hn
  exact ((selectAll_sorted t).and hp).imp (fun h => lt_of_le_of_ne h.1 h.2)

theorem selectAll_three (a : Int) (r1 r2 r3 : Row) (h1 : r1.id = a) (h2 : r2.id = a + 1)
    (h3 : r3.id = a + 1 + 1) (n : Int) :
    Table.selectAll { rows := [r1, r2, r3], autoInc := n } = [r1, r2, r3] := by
  have e1 : r2.id ≤ r3.id := by omega
  have e2 : r1.id ≤ r2.id := by omega
  simp [Table.selectAll, List.insertionSort, List.orderedInsert, e1, e2]

/-- C8: `GetAll` returns every row exactly once in strictly ascending order of id; on
an empty table it returns the empty sequence and a nil error; after three successful
`Create`s on an empty table it returns the three created records, as stored, in the
order of their assigned ids. -/
theorem GetAll_all_rows_ascending (t : Table) (h : (t.rows.map Row.id).Nodup) :
    (Database.GetAll Faults.none t).2 = Option.none ∧
    (Database.GetAll Faults.none t).1.Perm (t.rows.map Book.ofRow) ∧
    List.Pairwise (fun a b : Book => a.ID < b.ID) (Database.GetAll Faults.none t).1 ∧
    (∀ a : Int, Database.GetAll Faults.none { rows := [], autoInc := a } = ([], Option.none)) ∧
    (∀ (a : Int) (f1 f2 f3 : Faults) (b1 b2 b3 c1 c2 c3 : Book) (t1 t2 t3 : Table),
      Database.Create f1 { rows := [], autoInc := a } b1 = ((some c1, Option.none), t1) →
      Database.Create f2 t1 b2 = ((some c2, Option.none), t2) →
      Database.Create f3 t2 b3 = ((some c3, Option.none), t3) →
      Database.GetAll Faults.none t3 =
          ([b1.stored c1.ID, b2.stored c2.ID, b3.stored c3.ID], Option.none) ∧
        c1.ID < c2.ID ∧ c2.ID < c3.ID) := by
  refine ⟨?_, ?_, ?_, ?_, ?_⟩
  · rw [GetAll_none]
  · rw [GetAll_none]
    exact (selectAll_perm t).map Book.ofRow
  · rw [GetAll_none]
    exact List.pairwise_map.2 (selectAll_strict t h)
  · intro a
    rw [GetAll_none]
    rfl
  · intro a f1 f2 f3 b1 b2 b3 c1 c2 c3 t1 t2 t3 h1 h2 h3
    obtain ⟨e1, _, s1⟩ := Create_ok _ _ _ _ _ h1
    obtain ⟨e2, _, s2⟩ := Create_ok _ _ _ _ _ h2
    obtain ⟨e3, _, s3⟩ := Create_ok _ _ _ _ _ h3
    have i1 : c1.ID = a := by rw [e1]
    have i2 : c2.ID = a + 1 := by rw [e2, s1]
    have i3 : c3.ID = a + 1 + 1 := by rw [e3, s2, s1]
    refine ⟨?_, by omega, by omega⟩
    rw [GetAll_none, s3, s2, s1]
    simp only [List.nil_append, List.cons_append]
    rw [selectAll_three a _ _ _ rfl rfl rfl]
    simp [Book.ofRow, Book.stored, i1, i2, i3]

/-- C8 witness: the two-book table. -/
theorem GetAll_all_rows_ascending_witness :
    (shelf2.rows.map Row.id).Nodup ∧
    (Database.GetAll Faults.none shelf2).2 = Option.none ∧
    List.Pairwise (fun a b : Book => a.ID < b.ID) (Database.GetAll Faults.none shelf2).1 :=
  ⟨by decide, (GetAll_all_rows_ascending shelf2 (by decide)).1,
   (GetAll_all_rows_ascending shelf2 (by decide)).2.2.1⟩

/-! ## The primary key is kept by every statement -/

theorem insert_keeps_key (t t' : Table) (title author : String) (n : Int) (rating : ℚ)
    (res : ExecResult) (h : t.insert title n author rating = .ok (res, t'))
    (hk : (t.rows.map Row.id).Nodup) : (t'.rows.map Row.id).Nodup := by
  obtain ⟨_, h2, h3⟩ := insert_ok _ _ _ _ _ _ _ h
  rw [h3]
  simp only [List.map_append, List.map_cons, List.map_nil]
  rw [List.nodup_append]
  refine ⟨hk, List.nodup_singleton _, ?_⟩
  intro x hx hx'
  rw [List.mem_singleton] at hx'
  rw [List.mem_map] at hx
  obtain ⟨r, hr, hid⟩ := hx
  exact h2 r hr (hid.trans hx')

theorem update_keeps_key (t t' : Table) (title author : String) (n : Int) (rating : ℚ)
    (id : Int) (res : ExecResult) (h : t.update title n author rating id = .ok (res, t'))
    (hk : (t.rows.map Row.id).Nodup) : (t'.rows.map Row.id).Nodup := by
  have hids : t'.rows.map Row.id = t.rows.map Row.id := by
    unfold Table.update at h
    split at h
    · split at h
      · injection h with h
        injection h with _ ht
        rw [← ht]
        simp only [List.map_map]
        apply List.map_congr_left
        intro r _
        simp only [Function.comp]
        split <;> rfl
      all_goals cases h
    · injection h with h
      injection h with _ ht
      rw [← ht]
  rw [hids]
  exact hk

theorem delete_keeps_key (t : Table) (id : Int) (hk : (t.rows.map Row.id).Nodup) :
    ((t.delete id).2.rows.map Row.id).Nodup := by
  rw [delete_rows]
  exact hk.sublist ((List.filter_sublist _).map Row.id)

/-! ## The handlers -/

theorem Validate_len_pos (b : Book) (h : b.Validate ≠ []) : b.Validate.len > 0 := by
  unfold GoMap.len
  exact List.length_pos.2 h

theorem Valid_of_len (b : Book) (h : ¬ b.Validate.len > 0) : b.Valid := by
  have : b.Validate = [] := by
    unfold GoMap.len at h
    exact List.length_eq_zero.1 (by omega)
  exact (Validate_eq_nil b).1 this

theorem CreateBook_calls (f : Faults) (t : Table) (bind : Except Error Book) (c : RepoCall)
    (h : c ∈ (Handler.CreateBook f t bind).calls) :
    ∃ b, bind = .ok b ∧ c = .Create b ∧ b.Valid := by
  unfold Handler.CreateBook at h
  cases bind with
  | error e => simp at h
  | ok book =>
    by_cases hv : book.Validate.len > 0
    · simp [hv] at h
    · simp only [hv, if_false] at h
      refine ⟨book, rfl, ?_, Valid_of_len book hv⟩
      split at h <;> simpa using h

theorem UpdateBook_calls (f : Faults) (t : Table) (idParam : String)
    (bind : Except Error Book) (c : RepoCall)
    (h : c ∈ (Handler.UpdateBook f t idParam bind).calls) :
    ∃ id b, Atoi idParam = some id ∧ bind = .ok b ∧ c = .Update id b ∧ b.Valid := by
  unfold Handler.UpdateBook at h
  cases ha : Atoi idParam with
  | none => simp [ha] at h
  | some id =>
    cases bind with
    | error e => simp [ha] at h
    | ok book =>
      by_cases hv : book.Validate.len > 0
      · simp [ha, hv] at h
      · simp only [ha, hv, if_false] at h
        refine ⟨id, book, rfl, rfl, ?_, Valid_of_len book hv⟩
        split at h <;> simpa using h

/-- C9: `CreateBook` and `UpdateBook` answer a body that fails validation with 400 and
the validation mapping, without calling the repository or touching the table; every
book they pass to `Create` or `Update` satisfies the four constraints; the other
handlers never call `Create` or `Update`. -/
theorem handlers_never_forward_invalid (f : Faults) (t : Table) :
    (∀ b : Book, b.Validate ≠ [] →
      (Handler.CreateBook f t (.ok b)).response = ⟨400, .errors b.Validate⟩ ∧
      (Handler.CreateBook f t (.ok b)).calls = [] ∧
      (Handler.CreateBook f t (.ok b)).table = t) ∧
    (∀ (idParam : String) (id : Int) (b : Book), Atoi idParam = some id → b.Validate ≠ [] →
      (Handler.UpdateBook f t idParam (.ok b)).response = ⟨400, .errors b.Validate⟩) ∧
    (∀ (idParam : String) (b : Book), b.Validate ≠ [] →
      (Handler.UpdateBook f t idParam (.ok b)).response.status = 400 ∧
      (Handler.UpdateBook f t idParam (.ok b)).calls = [] ∧
      (Handler.UpdateBook f t idParam (.ok b)).table = t) ∧
    (∀ (bind : Except Error Book) (c : RepoCall), c ∈ (Handler.CreateBook f t bind).calls →
      ∃ b, c = .Create b ∧ b.Title ≠ "" ∧ b.Author ≠ "" ∧ 0 ≤ b.NumPages ∧
        0 ≤ b.Rating ∧ b.Rating ≤ 5) ∧
    (∀ (idParam : String) (bind : Except Error Book) (c : RepoCall),
      c ∈ (Handler.UpdateBook f t idParam bind).calls →
      ∃ id b, c = .Update id b ∧ b.Title ≠ "" ∧ b.Author ≠ "" ∧ 0 ≤ b.NumPages ∧
        0 ≤ b.Rating ∧ b.Rating ≤ 5) ∧
    (∀ (idParam : String) (c : RepoCall),
      c ∈ (Handler.GetAllBooks f t).calls ∨ c ∈ (Handler.GetBook f t idParam).calls ∨
        c ∈ (Handler.DeleteBook f t idParam).calls →
      (∀ b, c ≠ .Create b) ∧ (∀ id b, c ≠ .Update id b)) := by
  refine ⟨?_, ?_, ?_, ?_, ?_, ?_⟩
  · intro b hb
    have hl := Validate_len_pos b hb
    simp [Handler.CreateBook, hl]
  · intro idParam id b ha hb
    have hl := Validate_len_pos b hb
    simp [Handler.UpdateBook, ha, hl]
  · intro idParam b hb
    have hl := Validate_len_pos b hb
    unfold Handler.UpdateBook
    cases Atoi idParam <;> simp [hl]
  · intro bind c hc
    obtain ⟨b, _, hcb, hv⟩ := CreateBook_calls f t bind c hc
    exact ⟨b, hcb, hv⟩
  · intro idParam bind c hc
    obtain ⟨id, b, _, _, hcb, hv⟩ := UpdateBook_calls f t idParam bind c hc
    exact ⟨id, b, hcb, hv⟩
  · intro idParam c hc
    rcases hc with hc | hc | hc
    · unfold Handler.GetAllBooks at hc
      split at hc <;> simp at hc <;> subst hc <;>
        exact ⟨fun _ h => (by cases h), fun _ _ h => (by cases h)⟩
    · unfold Handler.GetBook at hc
      cases ha : Atoi idParam with
      | none => simp [ha] at hc
      | some id =>
        simp only [ha] at hc
        split at hc <;> simp at hc <;> subst hc <;>
          exact ⟨fun _ h => (by cases h), fun _ _ h => (by cases h)⟩
    · unfold Handler.DeleteBook at hc
      cases ha : Atoi idParam with
      | none => simp [ha] at hc
      | some id =>
        simp only [ha] at hc
        split at hc <;> simp at hc <;> subst hc <;>
          exact ⟨fun _ h => (by cases h), fun _ _ h => (by cases h)⟩

/-! ## bootstrap -/

theorem ExecSchema_ok (r : Option String) (run : Except Error Server) (s : Server)
    (h : ExecSchema r run = .ok s) : r = Option.none ∧ run = .ok s := by
  unfold ExecSchema at h
  cases r with
  | none => exact ⟨rfl, h⟩
  | some m => cases h

theorem createDatabase_ok (g : Grammar) (s s1 : Server) (text : String)
    (h : s.createDatabaseIfNotExists g text = .ok s1) :
    ∃ name options, g.createDatabase text = some (name, options) ∧
      s1.current = s.current ∧
      s1.databases.any (fun d => d.name == name) = true ∧
      (s1.databases = s.databases ∨
        s1.databases = s.databases ++ [{ name := name, options := options, tables := [] }]) := by
  unfold Server.createDatabaseIfNotExists at h
  cases hg : g.createDatabase text with
  | none => simp [hg] at h
  | some p =>
    obtain ⟨name, options⟩ := p
    simp only [hg] at h
    by_cases he : s.databases.any (fun d => d.name == name) = true
    · rw [if_pos he] at h
      injection h with h
      subst h
      exact ⟨name, options, rfl, rfl, he, Or.inl rfl⟩
    · rw [if_neg he] at h
      injection h with h
      subst h
      exact ⟨name, options, rfl, rfl, by simp, Or.inr rfl⟩

theorem createDatabase_exists (g : Grammar) (s : Server) (text name options : String)
    (hg : g.createDatabase text = some (name, options))
    (he : s.databases.any (fun d => d.name == name) = true) :
    s.createDatabaseIfNotExists g text = .ok s := by
  unfold Server.createDatabaseIfNotExists
  simp only [hg, he, if_true]

theorem use_ok (g : Grammar) (s s1 : Server) (text : String) (h : s.use g text = .ok s1) :
    ∃ name, g.use text = some name ∧ s1 = { s with current := some name } ∧
      s.databases.any (fun d => d.name == name) = true := by
  unfold Server.use at h
  cases hg : g.use text with
  | none => simp [hg] at h
  | some name =>
    simp only [hg] at h
    by_cases he : s.databases.any (fun d => d.name == name) = true
    · rw [if_pos he] at h
      injection h with h
      exact ⟨name, rfl, h.symm, he⟩
    · rw [if_neg he] at h
      cases h

theorem use_selected (g : Grammar) (s : Server) (text name : String)
    (hg : g.use text = some name)
    (he : s.databases.any (fun d => d.name == name) = true)
    (hc : s.current = some name) : s.use g text = .ok s := by
  unfold Server.use
  simp only [hg, he, if_true]
  cases s
  simp only at hc
  rw [hc]

theorem createTable_ok (s s1 : Server) (table : String) (d : TableDef)
    (h : s.createTableIfNotExists table d = .ok s1) :
    s1.current = s.current ∧
      (∀ name, s1.databases.any (fun db => db.name == name) =
        s.databases.any (fun db => db.name == name)) ∧
      (∀ db ∈ s1.databases, some db.name = s1.current →
        db.tables.any (fun e => e.1 == table) = true) ∧
      (∀ db ∈ s.databases, db ∈ s1.databases ∨
        (db.tables.any (fun e => e.1 == table) = false ∧
          { db with tables := db.tables ++ [(table, d)] } ∈ s1.databases)) := by
  unfold Server.createTableIfNotExists at h
  cases hc : s.current with
  | none => simp [hc] at h
  | some name =>
    simp only [hc] at h
    split at h
    · injection h with h
      subst h
      refine ⟨rfl, ?_, ?_, ?_⟩
      · intro n
        simp only [List.any_map]
        congr 1
        funext db
        simp only [Function.comp]
        split
        · split <;> rfl
        · rfl
      · intro db hdb hcur
        simp only [List.mem_map] at hdb
        obtain ⟨db0, _, hdb0⟩ := hdb
        simp only at hcur
        injection hcur with hcur
        by_cases hn : (db0.name == name) = true
        · rw [if_pos hn] at hdb0
          by_cases ht : db0.tables.any (fun e => e.1 == table) = true
          · rw [if_pos ht] at hdb0
            rw [← hdb0]; exact ht
          · rw [if_neg ht] at hdb0
            rw [← hdb0]
            simp
        · rw [if_neg hn] at hdb0
          rw [← hdb0] at hcur
          rw [hcur] at hn
          simp at hn
      · intro db hdb
        simp only [List.mem_map]
        by_cases hn : (db.name == name) = true
        · by_cases ht : db.tables.any (fun e => e.1 == table) = true
          · left
            exact ⟨db, hdb, by rw [if_pos hn, if_pos ht]⟩
          · right
            refine ⟨Bool.eq_false_iff.2 ht, db, hdb, ?_⟩
            rw [if_pos hn, if_neg ht]
        · left
          exact ⟨db, hdb, by rw [if_neg hn]⟩
    · cases h

theorem createTable_again (s : Server) (table : String) (d : TableDef) (name : String)
    (hc : s.current = some name)
    (he : s.databases.any (fun db => db.name == name) = true)
    (ht : ∀ db ∈ s.databases, some db.name = s.current →
      db.tables.any (fun e => e.1 == table) = true) :
    s.createTableIfNotExists table d = .ok s := by
  unfold Server.createTableIfNotExists
  simp only [hc, he, if_true]
  have hm : s.databases.map (fun db =>
      if db.name == name then
        if db.tables.any (fun e => e.1 == table) then db
        else { db with tables := db.tables ++ [(table, d)] }
      else db) = s.databases := by
    conv_rhs => rw [← List.map_id s.databases]
    apply List.map_congr_left
    intro db hdb
    by_cases hn : (db.name == name) = true
    · have : some db.name = s.current := by
        rw [hc]; simp at hn; rw [hn]
      rw [if_pos hn, if_pos (ht db hdb this)]
      rfl
    · rw [if_neg hn]
      rfl
  rw [hm]
  cases s
  simp only at hc
  rw [hc]

theorem bootstrap_err1 (g : Grammar) (f : Refusals) (s : Server) (dbName : String) (e : Error)
    (h1 : ExecSchema f.createDatabase (s.createDatabaseIfNotExists g dbName) = .error e) :
    bootstrap g f s dbName = (some (.wrapped "failed to create database" e), s) := by
  unfold bootstrap
  simp only [h1]

theorem bootstrap_err2 (g : Grammar) (f : Refusals) (s sa : Server) (dbName : String)
    (e : Error)
    (h1 : ExecSchema f.createDatabase (s.createDatabaseIfNotExists g dbName) = .ok sa)
    (h2 : ExecSchema f.use (sa.use g dbName) = .error e) :
    bootstrap g f s dbName = (some (.wrapped "failed to use database" e), sa) := by
  unfold bootstrap
  simp only [h1, h2]

theorem bootstrap_err3 (g : Grammar) (f : Refusals) (s sa sb : Server) (dbName : String)
    (e : Error)
    (h1 : ExecSchema f.createDatabase (s.createDatabaseIfNotExists g dbName) = .ok sa)
    (h2 : ExecSchema f.use (sa.use g dbName) = .ok sb)
    (h3 : ExecSchema f.createTable (sb.createTableIfNotExists "books" booksTableDef) =
      .error e) :
    bootstrap g f s dbName = (some (.wrapped "failed to create table" e), sb) := by
  unfold bootstrap
  simp only [h1, h2, h3]

theorem bootstrap_ok (g : Grammar) (f : Refusals) (s sa sb sc : Server) (dbName : String)
    (h1 : ExecSchema f.createDatabase (s.createDatabaseIfNotExists g dbName) = .ok sa)
    (h2 : ExecSchema f.use (sa.use g dbName) = .ok sb)
    (h3 : ExecSchema f.createTable (sb.createTableIfNotExists "books" booksTableDef) =
      .ok sc) :
    bootstrap g f s dbName = (Option.none, sc) := by
  unfold bootstrap
  simp only [h1, h2, h3]

theorem ExecSchema_none (r : Option String) (run : Except Error Server)
    (h : r = Option.none) : ExecSchema r run = run := by
  subst h
  rfl

/-- The three statements of a run that returned no error are without effect on the state
the run left. -/
theorem bootstrap_success_steps (g : Grammar) (f : Refusals) (s s3 : Server)
    (dbName : String) (h : bootstrap g f s dbName = (Option.none, s3)) :
    s3.createDatabaseIfNotExists g dbName = .ok s3 ∧ s3.use g dbName = .ok s3 ∧
      s3.createTableIfNotExists "books" booksTableDef = .ok s3 := by
  cases h1 : ExecSchema f.createDatabase (s.createDatabaseIfNotExists g dbName) with
  | error e => rw [bootstrap_err1 g f s dbName e h1] at h; cases h
  | ok sa =>
    cases h2 : ExecSchema f.use (sa.use g dbName) with
    | error e => rw [bootstrap_err2 g f s sa dbName e h1 h2] at h; cases h
    | ok sb =>
      cases h3 : ExecSchema f.createTable (sb.createTableIfNotExists "books" booksTableDef) with
      | error e => rw [bootstrap_err3 g f s sa sb dbName e h1 h2 h3] at h; cases h
      | ok sc =>
        rw [bootstrap_ok g f s sa sb sc dbName h1 h2 h3] at h
        injection h with _ h
        subst h
        obtain ⟨a, o, hga, _, hanya, _⟩ := createDatabase_ok _ _ _ _ (ExecSchema_ok _ _ _ h1).2
        obtain ⟨b, hgb, hsb, hanyb⟩ := use_ok _ _ _ _ (ExecSchema_ok _ _ _ h2).2
        obtain ⟨hcur, hany, htab, _⟩ := createTable_ok _ _ _ _ (ExecSchema_ok _ _ _ h3).2
        have hdb : sb.databases = sa.databases := by rw [hsb]
        have hcb : sb.current = some b := by rw [hsb]
        have hcc : sc.current = some b := by rw [hcur, hcb]
        refine ⟨createDatabase_exists g sc dbName a o hga ?_,
          use_selected g sc dbName b hgb ?_ hcc,
          createTable_again sc "books" booksTableDef b hcc ?_ htab⟩
        · rw [hany, hdb]; exact hanya
        · rw [hany, hdb]; exact hanyb
        · rw [hany, hdb]; exact hanyb

theorem bootstrap_of_fixed (g : Grammar) (r : Refusals) (s : Server) (dbName : String)
    (h1 : s.createDatabaseIfNotExists g dbName = .ok s) (h2 : s.use g dbName = .ok s)
    (h3 : s.createTableIfNotExists "books" booksTableDef = .ok s) :
    (bootstrap g r s dbName).2 = s ∧
      (r.createDatabase = Option.none → r.use = Option.none → r.createTable = Option.none →
        bootstrap g r s dbName = (Option.none, s)) := by
  cases hc : r.createDatabase with
  | some m => simp [bootstrap, ExecSchema, hc]
  | none =>
    cases hu : r.use with
    | some m => simp [bootstrap, ExecSchema, hc, hu, h1]
    | none =>
      cases ht : r.createTable with
      | some m => simp [bootstrap, ExecSchema, hc, hu, ht, h1, h2]
      | none => simp [bootstrap, ExecSchema, hc, hu, ht, h1, h2, h3]

theorem bootstrap_repeat (g : Grammar) (f : Refusals) (s : Server) (dbName : String) :
    bootstrap g f (bootstrap g f s dbName).2 dbName = bootstrap g f s dbName := by
  cases h1 : ExecSchema f.createDatabase (s.createDatabaseIfNotExists g dbName) with
  | error e => rw [bootstrap_err1 g f s dbName e h1, bootstrap_err1 g f s dbName e h1]
  | ok sa =>
    obtain ⟨hf1, hr1⟩ := ExecSchema_ok _ _ _ h1
    obtain ⟨a, o, hga, _, hanya, _⟩ := createDatabase_ok _ _ _ _ hr1
    have ha : ExecSchema f.createDatabase (sa.createDatabaseIfNotExists g dbName) = .ok sa := by
      rw [ExecSchema_none _ _ hf1]
      exact createDatabase_exists g sa dbName a o hga hanya
    cases h2 : ExecSchema f.use (sa.use g dbName) with
    | error e =>
      rw [bootstrap_err2 g f s sa dbName e h1 h2]
      exact bootstrap_err2 g f sa sa dbName e ha h2
    | ok sb =>
      obtain ⟨hf2, hr2⟩ := ExecSchema_ok _ _ _ h2
      obtain ⟨b, hgb, hsb, hanyb⟩ := use_ok _ _ _ _ hr2
      have hdb : sb.databases = sa.databases := by rw [hsb]
      have hcb : sb.current = some b := by rw [hsb]
      have hbc : ExecSchema f.createDatabase (sb.createDatabaseIfNotExists g dbName) =
          .ok sb := by
        rw [ExecSchema_none _ _ hf1]
        exact createDatabase_exists g sb dbName a o hga (by rw [hdb]; exact hanya)
      have hbu : ExecSchema f.use (sb.use g dbName) = .ok sb := by
        rw [ExecSchema_none _ _ hf2]
        exact use_selected g sb dbName b hgb (by rw [hdb]; exact hanyb) hcb
      cases h3 : ExecSchema f.createTable
          (sb.createTableIfNotExists "books" booksTableDef) with
      | error e =>
        rw [bootstrap_err3 g f s sa sb dbName e h1 h2 h3]
        exact bootstrap_err3 g f sb sb sb dbName e hbc hbu h3
      | ok sc =>
        have hb := bootstrap_ok g f s sa sb sc dbName h1 h2 h3
        obtain ⟨k1, k2, k3⟩ := bootstrap_success_steps g f s sc dbName hb
        obtain ⟨hf3, _⟩ := ExecSchema_ok _ _ _ h3
        rw [hb]
        exact (bootstrap_of_fixed g f sc dbName k1 k2 k3).2 hf1 hf2 hf3

theorem bootstrap_named (g : Grammar) (s : Server) (dbName name options : String)
    (hc : g.createDatabase dbName = some (name, options)) (hu : g.use dbName = some name) :
    ∃ s3, bootstrap g Refusals.none s dbName = (Option.none, s3) ∧ s3.current = some name ∧
      s3.databases.any (fun d => d.name == name) = true ∧
      ∀ db ∈ s3.databases, db.name = name →
        db.tables.any (fun e => e.1 == "books") = true := by
  have h1 : ∃ sa, s.createDatabaseIfNotExists g dbName = .ok sa ∧
      sa.databases.any (fun d => d.name == name) = true := by
    unfold Server.createDatabaseIfNotExists
    simp only [hc]
    by_cases he : s.databases.any (fun d => d.name == name) = true
    · exact ⟨s, by rw [if_pos he], he⟩
    · exact ⟨_, by rw [if_neg he], by simp⟩
  obtain ⟨sa, h1, hany⟩ := h1
  have h2 : sa.use g dbName = .ok { sa with current := some name } := by
    unfold Server.use
    simp only [hu, hany, if_true]
  have h3 : ∃ sc, Server.createTableIfNotExists { sa with current := some name } "books"
      booksTableDef = .ok sc := by
    unfold Server.createTableIfNotExists
    simp only [hany, if_true]
    exact ⟨_, rfl⟩
  obtain ⟨sc, h3⟩ := h3
  obtain ⟨hcur, hanyc, htab, _⟩ := createTable_ok _ _ _ _ h3
  refine ⟨sc, bootstrap_ok g Refusals.none s sa _ sc dbName h1 h2 h3, hcur, ?_, ?_⟩
  · rw [hanyc]; exact hany
  · intro db hdb hn
    apply htab db hdb
    rw [hcur, hn]

theorem bootstrap_keeps (g : Grammar) (f : Refusals) (s : Server) (dbName : String)
    (db : Schema) (hdb : db ∈ s.databases) :
    db ∈ (bootstrap g f s dbName).2.databases ∨
      (db.tables.any (fun e => e.1 == "books") = false ∧
        { db with tables := db.tables ++ [("books", booksTableDef)] } ∈
          (bootstrap g f s dbName).2.databases) := by
  cases h1 : ExecSchema f.createDatabase (s.createDatabaseIfNotExists g dbName) with
  | error e =>
    rw [bootstrap_err1 g f s dbName e h1]
    exact Or.inl hdb
  | ok sa =>
    obtain ⟨_, _, _, _, _, hsa⟩ := createDatabase_ok _ _ _ _ (ExecSchema_ok _ _ _ h1).2
    have hda : db ∈ sa.databases := by
      rcases hsa with hsa | hsa
      · rw [hsa]; exact hdb
      · rw [hsa]; exact List.mem_append_left _ hdb
    cases h2 : ExecSchema f.use (sa.use g dbName) with
    | error e =>
      rw [bootstrap_err2 g f s sa dbName e h1 h2]
      exact Or.inl hda
    | ok sb =>
      obtain ⟨_, _, hsb, _⟩ := use_ok _ _ _ _ (ExecSchema_ok _ _ _ h2).2
      have hdbb : db ∈ sb.databases := by rw [hsb]; exact hda
      cases h3 : ExecSchema f.createTable
          (sb.createTableIfNotExists "books" booksTableDef) with
      | error e =>
        rw [bootstrap_err3 g f s sa sb dbName e h1 h2 h3]
        exact Or.inl hdbb
      | ok sc =>
        rw [bootstrap_ok g f s sa sb sc dbName h1 h2 h3]
        exact (createTable_ok _ _ _ _ (ExecSchema_ok _ _ _ h3).2).2.2.2 db hdbb

/-- A text the server cannot parse in the first statement stops the run there, with the
state untouched. -/
theorem bootstrap_syntax_error (g : Grammar) (f : Refusals) (s : Server) (dbName : String)
    (h : g.createDatabase dbName = Option.none) :
    (bootstrap g f s dbName).1 ≠ Option.none ∧ (bootstrap g f s dbName).2 = s := by
  have h1 : s.createDatabaseIfNotExists g dbName =
      .error (.driver "Error 1064: You have an error in your SQL syntax") := by
    unfold Server.createDatabaseIfNotExists
    simp only [h]
  unfold bootstrap ExecSchema
  rw [h1]
  cases f.createDatabase <;> simp

/-- C10: `bootstrap` is idempotent.  For every grammar of the server, schema state and
name text: a second run returns what the first returned and leaves the state the first
left; after a run without error the second run returns no error and changes nothing,
whatever is refused during it; a text the server reads as one database name in both
statements bootstraps without error, twice, with that database selected and holding a
`books` table; and every database that existed is kept, its tables unaltered, `books`
being added only where no table of that name was. -/
theorem bootstrap_idempotent (g : Grammar) (s : Server) (dbName : String) :
    (∀ f : Refusals,
      bootstrap g f (bootstrap g f s dbName).2 dbName = bootstrap g f s dbName) ∧
    (∀ f : Refusals, (bootstrap g f s dbName).1 = Option.none →
      bootstrap g Refusals.none (bootstrap g f s dbName).2 dbName =
        (Option.none, (bootstrap g f s dbName).2) ∧
      ∀ r : Refusals,
        (bootstrap g r (bootstrap g f s dbName).2 dbName).2 = (bootstrap g f s dbName).2) ∧
    (∀ name options : String, g.createDatabase dbName = some (name, options) →
      g.use dbName = some name →
      (bootstrap g Refusals.none s dbName).1 = Option.none ∧
      bootstrap g Refusals.none (bootstrap g Refusals.none s dbName).2 dbName =
        (Option.none, (bootstrap g Refusals.none s dbName).2) ∧
      (bootstrap g Refusals.none s dbName).2.current = some name ∧
      (bootstrap g Refusals.none s dbName).2.databases.any (fun d => d.name == name) = true ∧
      ∀ db ∈ (bootstrap g Refusals.none s dbName).2.databases, db.name = name →
        db.tables.any (fun e => e.1 == "books") = true) ∧
    (∀ (f : Refusals) (db : Schema), db ∈ s.databases →
      db ∈ (bootstrap g f s dbName).2.databases ∨
        (db.tables.any (fun e => e.1 == "books") = false ∧
          { db with tables := db.tables ++ [("books", booksTableDef)] } ∈
            (bootstrap g f s dbName).2.databases)) := by
  have key : ∀ f : Refusals, (bootstrap g f s dbName).1 = Option.none →
      bootstrap g Refusals.none (bootstrap g f s dbName).2 dbName =
        (Option.none, (bootstrap g f s dbName).2) ∧
      ∀ r : Refusals,
        (bootstrap g r (bootstrap g f s dbName).2 dbName).2 = (bootstrap g f s dbName).2 := by
    intro f hf
    have hb : bootstrap g f s dbName = (Option.none, (bootstrap g f s dbName).2) := by
      rw [← hf]
    obtain ⟨k1, k2, k3⟩ := bootstrap_success_steps g f s _ dbName hb
    exact ⟨(bootstrap_of_fixed g Refusals.none _ dbName k1 k2 k3).2 rfl rfl rfl,
      fun r => (bootstrap_of_fixed g r _ dbName k1 k2 k3).1⟩
  refine ⟨fun f => bootstrap_repeat g f s dbName, key, ?_, ?_⟩
  · intro name options hc hu
    obtain ⟨s3, h3, hcur, hany, htab⟩ := bootstrap_named g s dbName name options hc hu
    have h1 : (bootstrap g Refusals.none s dbName).1 = Option.none := by rw [h3]
    refine ⟨h1, (key Refusals.none h1).1, ?_, ?_, ?_⟩
    · rw [h3]; exact hcur
    · rw [h3]; exact hany
    · rw [h3]; exact htab
  · intro f db hdb
    exact bootstrap_keeps g f s dbName db hdb

/-- C10 witness: the default name `bookdb`, which the server reads as the name itself,
on a server with no database: the first run creates the database and the table, the
second returns no error and leaves them. -/
theorem bootstrap_idempotent_witness :
    bootstrap { createDatabase := fun text => some (text, ""), use := fun text => some text }
        Refusals.none freshServer "bookdb" =
      (Option.none,
       { databases := [{ name := "bookdb", options := "",
                         tables := [("books", booksTableDef)] }],
         current := some "bookdb" }) ∧
    bootstrap { createDatabase := fun text => some (text, ""), use := fun text => some text }
        Refusals.none
        (bootstrap
          { createDatabase := fun text => some (text, ""), use := fun text => some text }
          Refusals.none freshServer "bookdb").2 "bookdb" =
      (Option.none,
       (bootstrap
          { createDatabase := fun text => some (text, ""), use := fun text => some text }
          Refusals.none freshServer "bookdb").2) :=
  ⟨by decide,
   ((bootstrap_idempotent
      { createDatabase := fun text => some (text, ""), use := fun text => some text }
      freshServer "bookdb").2.2.1 "bookdb" "" rfl rfl).2.1⟩

/-- A text read as a name with create options in the first statement and not parsed in
the second: the database is created, `USE` fails, and the second run fails the same way
on the same state. -/
theorem bootstrap_options_text :
    bootstrap { createDatabase := fun _ => some ("bookdb", "CHARACTER SET utf8mb4"),
                use := fun _ => Option.none }
        Refusals.none freshServer "bookdb CHARACTER SET utf8mb4" =
      (some (.wrapped "failed to use database"
        (.driver "Error 1064: You have an error in your SQL syntax")),
       { databases := [{ name := "bookdb", options := "CHARACTER SET utf8mb4", tables := [] }],
         current := Option.none }) ∧
    bootstrap { createDatabase := fun _ => some ("bookdb", "CHARACTER SET utf8mb4"),
                use := fun _ => Option.none }
        Refusals.none
        { databases := [{ name := "bookdb", options := "CHARACTER SET utf8mb4", tables := [] }],
          current := Option.none } "bookdb CHARACTER SET utf8mb4" =
      (some (.wrapped "failed to use database"
        (.driver "Error 1064: You have an error in your SQL syntax")),
       { databases := [{ name := "bookdb", options := "CHARACTER SET utf8mb4", tables := [] }],
         current := Option.none }) := by
  decide

/-- A run whose `CREATE TABLE` is refused leaves the database created and selected and
returns the refusal. -/
theorem bootstrap_table_refused :
    bootstrap { createDatabase := fun text => some (text, ""), use := fun text => some text }
        { createDatabase := Option.none, use := Option.none,
          createTable := some "Error 1142: CREATE command denied" }
        freshServer "bookdb" =
      (some (.wrapped "failed to create table" (.driver "Error 1142: CREATE command denied")),
       { databases := [{ name := "bookdb", options := "", tables := [] }],
         current := some "bookdb" }) := by
  decide

/-! ## Failures the repository does return -/

theorem Create_reports_failure (f : Faults) (t : Table) (book : Book) :
    (∀ msg, f.exec = some msg →
      Database.Create f t book =
        ((Option.none, some (.wrapped "failed to create book" (.driver msg))), t)) ∧
    (∀ e, f.exec = Option.none →
      t.insert book.Title book.NumPages book.Author book.Rating = .error e →
      Database.Create f t book =
        ((Option.none, some (.wrapped "failed to create book" e)), t)) ∧
    (∀ msg res t', f.exec = Option.none → f.lastInsertId = some msg →
      t.insert book.Title book.NumPages book.Author book.Rating = .ok (res, t') →
      Database.Create f t book =
        ((Option.none, some (.wrapped "failed to get last insert ID" (.driver msg))), t')) := by
  refine ⟨?_, ?_, ?_⟩
  · intro msg h
    simp [Database.Create, Exec, h]
  · intro e h hi
    simp [Database.Create, Exec, h, hi]
  · intro msg res t' h hl hi
    simp [Database.Create, Exec, h, hi, hl]

theorem Update_reports_failure (f : Faults) (t : Table) (id : Int) (book : Book) :
    (∀ msg, f.exec = some msg →
      Database.Update f t id book =
        ((Option.none, some (.wrapped "failed to update book" (.driver msg))), t)) ∧
    (∀ e, f.exec = Option.none →
      t.update book.Title book.NumPages book.Author book.Rating id = .error e →
      Database.Update f t id book =
        ((Option.none, some (.wrapped "failed to update book" e)), t)) ∧
    (∀ msg res t', f.exec = Option.none → f.rowsAffected = some msg →
      t.update book.Title book.NumPages book.Author book.Rating id = .ok (res, t') →
      Database.Update f t id book =
        ((Option.none, some (.wrapped "failed to get rows affected" (.driver msg))), t')) := by
  refine ⟨?_, ?_, ?_⟩
  · intro msg h
    simp [Database.Update, Exec, h]
  · intro e h hi
    simp [Database.Update, Exec, h, hi]
  · intro msg res t' h hl hi
    simp [Database.Update, Exec, h, hi, hl]

theorem Delete_reports_failure (f : Faults) (t : Table) (id : Int) :
    (∀ msg, f.exec = some msg →
      Database.Delete f t id =
        ((false, some (.wrapped "failed to delete book" (.driver msg))), t)) ∧
    (∀ msg, f.exec = Option.none → f.rowsAffected = some msg →
      Database.Delete f t id =
        ((false, some (.wrapped "failed to get rows affected" (.driver msg))),
         (t.delete id).2)) := by
  refine ⟨?_, ?_⟩
  · intro msg h
    simp [Database.Delete, Exec, h]
  · intro msg h hl
    simp [Database.Delete, Exec, h, hl]

theorem GetAll_loop_scan_failure (f : Faults) (rows : List Row) (k : Nat) (acc : List Book)
    (h : ∃ i, i < rows.length ∧ f.scan (k + i) ≠ Option.none) :
    ∃ msg, Database.GetAll.loop (scanFrom f k rows) acc =
      ([], some (.wrapped "failed to scan book" (.driver msg))) := by
  induction rows generalizing k acc with
  | nil =>
    obtain ⟨i, hi, _⟩ := h
    simp at hi
  | cons r rest ih =>
    cases hs : f.scan k with
    | some msg => exact ⟨msg, by simp [scanFrom, hs, Database.GetAll.loop]⟩
    | none =>
      obtain ⟨i, hi, hne⟩ := h
      cases i with
      | zero => exact absurd hs (by simpa using hne)
      | succ j =>
        have hj : ∃ i, i < rest.length ∧ f.scan (k + 1 + i) ≠ Option.none := by
          refine ⟨j, by simpa using hi, ?_⟩
          have : k + 1 + j = k + (j + 1) := by omega
          rw [this]
          exact hne
        obtain ⟨msg, hm⟩ := ih (k + 1) (acc ++ [Book.ofRow r]) hj
        exact ⟨msg, by simp [scanFrom, hs, Database.GetAll.loop, hm]⟩

theorem GetAll_reports_failure (f : Faults) (t : Table) :
    (∀ msg, f.exec = some msg →
      Database.GetAll f t = ([], some (.wrapped "failed to get books" (.driver msg)))) ∧
    (f.exec = Option.none → f.stream = Option.none →
      (∃ i, i < t.rows.length ∧ f.scan i ≠ Option.none) →
      ∃ msg, Database.GetAll f t =
        ([], some (.wrapped "failed to scan book" (.driver msg)))) := by
  refine ⟨?_, ?_⟩
  · intro msg h
    simp [Database.GetAll, Query, h]
  · intro he hs hi
    obtain ⟨i, hi, hne⟩ := hi
    have hlen : t.selectAll.length = t.rows.length := (selectAll_perm t).length_eq
    have := GetAll_loop_scan_failure f t.selectAll 0 []
      ⟨i, by rw [hlen]; exact hi, by simpa using hne⟩
    simpa [Database.GetAll, Query, he, hs] using this

end Bookmgr
